import Mathlib

/-
Verification of the sim_sdk record-and-replay core.

Shallow embedding of the Python sources under sim_sdk/:
  context.py       - SimContext, next_ordinal, _create_context_from_env
  trace.py         - sim_trace sync wrapper, _prepare_call, _emit_record, _replay
  db.py            - _is_write_statement, DBProxy replay/record dispatch
  capture.py       - CaptureHandle, sim_capture setup/teardown
  sink/in_memory_buffer.py, sink/record_sink.py - bounded buffer, emit
  diff.py          - DiffEngine.compare over DeepDiff deltas
  canonicalize.py  - _normalize_value, canonicalize, fingerprint
  canonical.py     - canonicalize_json, fingerprint (full SHA-256)

Python dictionaries are embedded as association lists preserving insertion
order; Python None is a dedicated constructor; floats are embedded as
rationals together with the special values nan, inf and negative inf; 32-bit
words in the hash are naturals reduced mod 2^32.  External effects
(filesystem reads, uuid4, wall clock, random indices, the DeepDiff library
output and the bound-argument map produced by inspect.signature) enter the
definitions as explicit parameters.
-/

set_option maxHeartbeats 1000000
set_option linter.unusedVariables false

-- ---------------------------------------------------------------------------
-- Python string primitives, embedded over List Char
-- ---------------------------------------------------------------------------

/- str.lower / str.upper (the sources only rely on ASCII behaviour). -/
def pyLower (s : String) : String := String.mk (s.data.map Char.toLower)

def pyUpper (s : String) : String := String.mk (s.data.map Char.toUpper)

/- str.strip(): remove leading and trailing whitespace. -/
def pyStrip (s : String) : String :=
  String.mk (((s.data.dropWhile Char.isWhitespace).reverse.dropWhile
    Char.isWhitespace).reverse)

/- str.startswith(p). -/
def pyStartsWith (s p : String) : Bool := p.data.isPrefixOf s.data

/- str.endswith(p). -/
def pyEndsWith (s p : String) : Bool := p.data.reverse.isPrefixOf s.data.reverse

/- Python `sub in s` substring test. -/
def subOccurs (needle : List Char) : List Char → Bool
  | [] => needle.isPrefixOf []
  | c :: t => needle.isPrefixOf (c :: t) || subOccurs needle t

def pyContains (s sub : String) : Bool := subOccurs sub.data s.data

/- s[:n] slicing. -/
def strTake (s : String) (n : Nat) : String := String.mk (s.data.take n)

/-
str.replace(pat, rep) for a non-empty pattern: left-to-right,
non-overlapping.  Structured on an explicit fuel argument (initialised to
the text length, which is always sufficient) so that it evaluates by
kernel reduction.
-/
def replaceFuel (pat rep : List Char) : Nat → List Char → List Char
  | _, [] => []
  | 0, hay => hay
  | fuel + 1, c :: t =>
    if pat.isPrefixOf (c :: t) ∧ pat ≠ [] then
      rep ++ replaceFuel pat rep fuel (t.drop (pat.length - 1))
    else
      c :: replaceFuel pat rep fuel t

def pyReplace (s pat rep : String) : String :=
  String.mk (replaceFuel pat.data rep.data s.data.length s.data)

/-
A JSON-compatible Python value as it flows through trace.py / capture.py /
db.py / diff.py: the result of json.load or of trace._make_serializable.
Python bool is a dedicated constructor (in Python bool is a subclass of
int; isinstance checks in the sources always test bool first).
-/
inductive PyValue where
  | none : PyValue
  | bool (b : Bool) : PyValue
  | int (n : Int) : PyValue
  | float (q : Rat) : PyValue
  | str (s : String) : PyValue
  | bytes (bs : List Nat) : PyValue
  | list (items : List PyValue) : PyValue
  | dict (entries : List (String × PyValue)) : PyValue

/- dict.get(key) with default None, as used on parsed fixture JSON. -/
def dictGet (entries : List (String × PyValue)) (k : String) : PyValue :=
  (entries.lookup k).getD PyValue.none

/- bytes.hex(): lowercase hexadecimal, two digits per byte (trace.py:144). -/
def hexChar (n : Nat) : Char :=
  if n < 10 then Char.ofNat (48 + n) else Char.ofNat (87 + n)

def byteHex (b : Nat) : String :=
  String.mk [hexChar ((b / 16) % 16), hexChar (b % 16)]

def bytesHex (bs : List Nat) : String :=
  String.join (bs.map byteHex)

/-
trace.py _make_serializable: identity on None/str/int/float/bool, bytes to
hex, recursion through dict and list.  The isoformat/__float__/str
fallbacks apply to objects outside this embedded value domain.
-/
def _make_serializable : PyValue → PyValue
  | PyValue.none => PyValue.none
  | PyValue.bool b => PyValue.bool b
  | PyValue.int n => PyValue.int n
  | PyValue.float q => PyValue.float q
  | PyValue.str s => PyValue.str s
  | PyValue.bytes bs => PyValue.str (bytesHex bs)
  | PyValue.dict es => PyValue.dict (es.attach.map (fun e =>
      (e.1.1, _make_serializable e.1.2)))
  | PyValue.list items => PyValue.list (items.attach.map (fun e =>
      _make_serializable e.1))
  decreasing_by
  · rcases e with ⟨⟨k, v⟩, hmem⟩
    have := List.sizeOf_lt_of_mem hmem
    simp only [PyValue.dict.sizeOf_spec, Prod.mk.sizeOf_spec] at *
    omega
  · rcases e with ⟨v, hmem⟩
    have := List.sizeOf_lt_of_mem hmem
    simp only [PyValue.list.sizeOf_spec] at *
    omega

-- ---------------------------------------------------------------------------
-- context.py
-- ---------------------------------------------------------------------------

inductive SimMode where
  | OFF : SimMode
  | RECORD : SimMode
  | REPLAY : SimMode
deriving DecidableEq

/-
SimContext (context.py:30-94).  ordinal_counters is a Python dict used only
through .get(fp, 0), assignment and .clear(), so it is embedded as a total
function with default 0.  The sink object is reduced to the fact of its
presence; writes produced through it are returned by the operations that
perform them.  collected_stubs holds the stub descriptor dicts.
-/
structure SimContext where
  mode : SimMode := SimMode.OFF
  run_id : String := ""
  fixture_id : String := ""
  request_id : String := ""
  stub_dir : Option String := none
  hasSink : Bool := false
  ordinal_counters : String → Nat := fun _ => 0
  collected_stubs : List PyValue := []
  trace_depth : Int := 0

/- context.py:56-60 -/
def SimContext.next_ordinal (ctx : SimContext) (fingerprint : String) :
    Nat × SimContext :=
  let current := ctx.ordinal_counters fingerprint
  (current,
   { ctx with ordinal_counters := fun g =>
       if g = fingerprint then current + 1 else ctx.ordinal_counters g })

/- context.py:62-64 -/
def SimContext.reset_ordinals (ctx : SimContext) : SimContext :=
  { ctx with ordinal_counters := fun _ => 0 }

/- context.py:75-79 -/
def SimContext.reset (ctx : SimContext) : SimContext :=
  { ctx with ordinal_counters := fun _ => 0, collected_stubs := [],
             trace_depth := 0 }

/- context.py:66-73; the fresh uuid4-derived id is an explicit parameter. -/
def SimContext.start_new_request (ctx : SimContext) (new_id : String) :
    SimContext :=
  { ctx.reset with request_id := new_id }

def SimContext.is_active (ctx : SimContext) : Bool :=
  ctx.mode ≠ SimMode.OFF

def SimContext.is_recording (ctx : SimContext) : Bool :=
  ctx.mode = SimMode.RECORD

def SimContext.is_replaying (ctx : SimContext) : Bool :=
  ctx.mode = SimMode.REPLAY

/-
context.py:147-163 _create_context_from_env.  Environment variables are
Option String parameters; the random default run id is a parameter
(uuid4).  SimMode(mode_str) raising ValueError on an unknown value and the
except-branch substituting OFF is embedded as the final else.
-/
def _create_context_from_env (sim_mode sim_run_id sim_stub_dir : Option String)
    (random_run_id : String) : SimContext :=
  let mode_str := pyLower (sim_mode.getD "off")
  let mode :=
    if mode_str = "off" then SimMode.OFF
    else if mode_str = "record" then SimMode.RECORD
    else if mode_str = "replay" then SimMode.REPLAY
    else SimMode.OFF
  { mode := mode,
    run_id := sim_run_id.getD random_run_id,
    stub_dir := sim_stub_dir }

-- Ordinal bookkeeping: run a sequence of next_ordinal calls and extract the
-- values returned for one fingerprint.

def runOrdinals (ctx : SimContext) : List String → List Nat
  | [] => []
  | f :: fs =>
    let r := ctx.next_ordinal f
    r.1 :: runOrdinals r.2 fs

def ordinalsFor (ctx : SimContext) (fs : List String) (f : String) : List Nat :=
  ((fs.zip (runOrdinals ctx fs)).filterMap
    (fun p => if p.1 = f then some p.2 else Option.none))

theorem ordinalsFor_eq_range' (fs : List String) :
    ∀ (ctx : SimContext) (f : String),
      ordinalsFor ctx fs f =
        List.range' (ctx.ordinal_counters f) (fs.count f) := by
  induction fs with
  | nil => intro ctx f; rfl
  | cons g rest ih =>
    intro ctx f
    have hstep : ordinalsFor ctx (g :: rest) f =
        (if g = f then [ctx.ordinal_counters g] else []) ++
          ordinalsFor ((ctx.next_ordinal g)).2 rest f := by
      by_cases hgf : g = f <;>
        simp [ordinalsFor, runOrdinals, SimContext.next_ordinal, hgf]
    have hcnt : ((ctx.next_ordinal g)).2.ordinal_counters f =
        if f = g then ctx.ordinal_counters g + 1 else ctx.ordinal_counters f :=
      rfl
    rw [hstep, ih, hcnt]
    by_cases hgf : g = f
    · subst hgf
      simp [List.count_cons_self, List.range'_succ]
    · have hfg : ¬f = g := fun h => hgf h.symm
      simp only [if_neg hgf, if_neg hfg, List.nil_append]
      rw [List.count_cons_of_ne (by simpa using hfg)]

/--
C3. For every context whose ordinal counters are fresh (all zero, as after
creation or reset) and every interleaved sequence of next_ordinal calls, the
values returned for a given fingerprint f are exactly 0, 1, 2, ... with no
gaps; calls for other fingerprints interleaved arbitrarily do not disturb
them, so counters for distinct fingerprints are independent.
-/
theorem C3_next_ordinal_sequence (ctx : SimContext)
    (hfresh : ctx.ordinal_counters = fun _ => 0)
    (fs : List String) (f : String) :
    ordinalsFor ctx fs f = List.range (fs.count f) := by
  rw [ordinalsFor_eq_range', hfresh, List.range_eq_range']

/--
Witness for C3: a freshly created context, with calls interleaving two
fingerprints; the calls for "fp1" return 0, 1 in order.
-/
theorem C3_next_ordinal_sequence_witness :
    ordinalsFor (_create_context_from_env Option.none Option.none Option.none "r")
      ["fp1", "fp2", "fp1"] "fp1" = List.range 2 :=
  C3_next_ordinal_sequence _ rfl ["fp1", "fp2", "fp1"] "fp1"

/--
C8. Creating a context from the environment never throws on a bad mode: for
every SIM_MODE value whose lowercase form is not one of "off", "record",
"replay", the created context has mode OFF (the embedded function is total,
so no exception escapes).
-/
theorem C8_invalid_mode_degrades_to_off (v : String)
    (h : pyLower v ∉ (["off", "record", "replay"] : List String))
    (rid sd : Option String) (rnd : String) :
    (_create_context_from_env (some v) rid sd rnd).mode = SimMode.OFF := by
  simp only [List.mem_cons, List.mem_singleton, not_or] at h
  obtain ⟨h1, h2, h3⟩ := h
  simp [_create_context_from_env, h1, h2, h3]

/-- Witness for C8: SIM_MODE set to "Banana" yields mode OFF. -/
theorem C8_invalid_mode_degrades_to_off_witness :
    (_create_context_from_env (some "Banana") Option.none Option.none "r").mode
      = SimMode.OFF :=
  C8_invalid_mode_degrades_to_off "Banana" (by decide) Option.none Option.none "r"

-- ---------------------------------------------------------------------------
-- Number and string rendering helpers (kernel-reducible)
-- ---------------------------------------------------------------------------

def digitChar (n : Nat) : Char := Char.ofNat (48 + n)

def natDigitsFuel : Nat → Nat → List Char
  | 0, _ => []
  | fuel + 1, n =>
    if n < 10 then [digitChar n]
    else natDigitsFuel fuel (n / 10) ++ [digitChar (n % 10)]

def natRepr (n : Nat) : String := String.mk (natDigitsFuel (n + 1) n)

def intRepr (i : Int) : String :=
  if i < 0 then "-" ++ natRepr i.natAbs else natRepr i.natAbs

def joinStr : String → List String → String
  | _, [] => ""
  | _, [s] => s
  | sep, s :: t => s ++ sep ++ joinStr sep t

def hex4 (n : Nat) : String :=
  String.mk ((List.range 4).reverse.map (fun i => hexChar ((n >>> (4 * i)) % 16)))

/-
json.dumps string escaping with ensure_ascii=True (canonicalize.py) and
with ensure_ascii=False (canonical.py).  Control characters get their JSON
shorthands or a \uXXXX escape; in ASCII mode all characters above 0x7e are
escaped, non-BMP ones as surrogate pairs.
-/
def escapeCharA (c : Char) : String :=
  let n := c.toNat
  if c = '"' then "\\\"" else if c = '\\' then "\\\\"
  else if n = 10 then "\\n" else if n = 13 then "\\r" else if n = 9 then "\\t"
  else if n = 8 then "\\b" else if n = 12 then "\\f"
  else if n < 32 then "\\u" ++ hex4 n
  else if n < 127 then String.mk [c]
  else if n < 65536 then "\\u" ++ hex4 n
  else
    "\\u" ++ hex4 (55296 + (n - 65536) / 1024) ++
    "\\u" ++ hex4 (56320 + (n - 65536) % 1024)

def escapeCharU (c : Char) : String :=
  let n := c.toNat
  if c = '"' then "\\\"" else if c = '\\' then "\\\\"
  else if n = 10 then "\\n" else if n = 13 then "\\r" else if n = 9 then "\\t"
  else if n = 8 then "\\b" else if n = 12 then "\\f"
  else if n < 32 then "\\u" ++ hex4 n
  else String.mk [c]

def jsonQuoteA (s : String) : String :=
  "\"" ++ String.join (s.data.map escapeCharA) ++ "\""

def jsonQuoteU (s : String) : String :=
  "\"" ++ String.join (s.data.map escapeCharU) ++ "\""

def trimTrailingZeros (cs : List Char) : List Char :=
  (cs.reverse.dropWhile (fun c => c = '0')).reverse

def padLeftZeros (w : Nat) (cs : List Char) : List Char :=
  List.replicate (w - cs.length) '0' ++ cs

/-
Decimal rendering of an embedded Python float (a rational in this
embedding).  Agrees with Python repr on every value with an exact decimal
expansion of at most 17 fractional digits - in particular on every result
of round(x, 6) - and is otherwise a deterministic truncation.
-/
def ratRepr (q : Rat) : String :=
  let sign := if q < 0 then "-" else ""
  let a := |q|
  let ip := a.floor.toNat
  let fr := a - (ip : Rat)
  let scaled := (fr * (10 : Rat) ^ (17 : Nat)).floor.toNat
  let digits := trimTrailingZeros (padLeftZeros 17 (natDigitsFuel (scaled + 1) scaled))
  if digits = [] then sign ++ natRepr ip ++ ".0"
  else sign ++ natRepr ip ++ "." ++ String.mk digits

def b64Char (n : Nat) : Char :=
  if n < 26 then Char.ofNat (65 + n)
  else if n < 52 then Char.ofNat (97 + (n - 26))
  else if n < 62 then Char.ofNat (48 + (n - 52))
  else if n = 62 then '+' else '/'

/- base64.b64encode for a byte list, standard alphabet with = padding. -/
def base64Encode : List Nat → String
  | [] => ""
  | [a] => String.mk [b64Char (a / 4), b64Char ((a % 4) * 16)] ++ "=="
  | [a, b] =>
    String.mk [b64Char (a / 4), b64Char ((a % 4) * 16 + b / 16),
               b64Char ((b % 16) * 4)] ++ "="
  | a :: b :: c :: t =>
    String.mk [b64Char (a / 4), b64Char ((a % 4) * 16 + b / 16),
               b64Char ((b % 16) * 4 + c / 64), b64Char (c % 64)] ++
    base64Encode t

-- ---------------------------------------------------------------------------
-- SHA-256 (hashlib.sha256), words as naturals reduced mod 2^32
-- ---------------------------------------------------------------------------

def wmask (n : Nat) : Nat := n % 4294967296

def rotr (k n : Nat) : Nat := wmask ((n >>> k) ||| (n <<< (32 - k)))

def smallSigma0 (x : Nat) : Nat := (rotr 7 x) ^^^ (rotr 18 x) ^^^ (x >>> 3)

def smallSigma1 (x : Nat) : Nat := (rotr 17 x) ^^^ (rotr 19 x) ^^^ (x >>> 10)

def bigSigma0 (x : Nat) : Nat := (rotr 2 x) ^^^ (rotr 13 x) ^^^ (rotr 22 x)

def bigSigma1 (x : Nat) : Nat := (rotr 6 x) ^^^ (rotr 11 x) ^^^ (rotr 25 x)

def chFn (x y z : Nat) : Nat := (x &&& y) ^^^ ((x ^^^ 4294967295) &&& z)

def majFn (x y z : Nat) : Nat := (x &&& y) ^^^ (x &&& z) ^^^ (y &&& z)

def K256 : List Nat :=
  [1116352408, 1899447441, 3049323471, 3921009573, 961987163,
   1508970993, 2453635748, 2870763221, 3624381080, 310598401,
   607225278, 1426881987, 1925078388, 2162078206, 2614888103,
   3248222580, 3835390401, 4022224774, 264347078, 604807628,
   770255983, 1249150122, 1555081692, 1996064986, 2554220882,
   2821834349, 2952996808, 3210313671, 3336571891, 3584528711,
   113926993, 338241895, 666307205, 773529912, 1294757372,
   1396182291, 1695183700, 1986661051, 2177026350, 2456956037,
   2730485921, 2820302411, 3259730800, 3345764771, 3516065817,
   3600352804, 4094571909, 275423344, 430227734, 506948616,
   659060556, 883997877, 958139571, 1322822218, 1537002063,
   1747873779, 1955562222, 2024104815, 2227730452, 2361852424,
   2428436474, 2756734187, 3204031479, 3329325298]

def sha256InitH : List Nat :=
  [1779033703, 3144134277, 1013904242, 2773480762, 1359893119,
   2600822924, 528734635, 1541459225]

def utf8EncodeChar (n : Nat) : List Nat :=
  if n < 128 then [n]
  else if n < 2048 then [192 + n / 64, 128 + n % 64]
  else if n < 65536 then [224 + n / 4096, 128 + (n / 64) % 64, 128 + n % 64]
  else [240 + n / 262144, 128 + (n / 4096) % 64, 128 + (n / 64) % 64,
        128 + n % 64]

def strUtf8 (s : String) : List Nat :=
  s.data.flatMap (fun c => utf8EncodeChar c.toNat)

def be64 (n : Nat) : List Nat :=
  (List.range 8).reverse.map (fun i => (n >>> (8 * i)) % 256)

def padMessage (msg : List Nat) : List Nat :=
  let L := msg.length
  let k := (56 + 64 - ((L + 1) % 64)) % 64
  msg ++ [128] ++ List.replicate k 0 ++ be64 (8 * L)

def chunk64 : Nat → List Nat → List (List Nat)
  | 0, _ => []
  | _, [] => []
  | fuel + 1, l => l.take 64 :: chunk64 fuel (l.drop 64)

def bytesToWords : List Nat → List Nat
  | b0 :: b1 :: b2 :: b3 :: t =>
    ((((b0 * 256) + b1) * 256 + b2) * 256 + b3) :: bytesToWords t
  | _ => []

def msgSchedule (ws : List Nat) : List Nat :=
  (List.range 48).foldl (fun acc _ =>
    let n := acc.length
    let w := wmask (smallSigma1 (acc.getD (n - 2) 0) + acc.getD (n - 7) 0 +
                    smallSigma0 (acc.getD (n - 15) 0) + acc.getD (n - 16) 0)
    acc ++ [w]) ws

def compressBlock (h : List Nat) (block : List Nat) : List Nat :=
  let ws := msgSchedule (bytesToWords block)
  let st := (ws.zip K256).foldl (fun (st : List Nat) (wk : Nat × Nat) =>
    match st with
    | [a, b, c, d, e, ff, g, hh] =>
      let t1 := wmask (hh + bigSigma1 e + chFn e ff g + wk.2 + wk.1)
      let t2 := wmask (bigSigma0 a + majFn a b c)
      [wmask (t1 + t2), a, b, c, wmask (d + t1), e, ff, g]
    | other => other) h
  (h.zip st).map (fun p => wmask (p.1 + p.2))

def sha256Words (msg : List Nat) : List Nat :=
  let padded := padMessage msg
  (chunk64 padded.length padded).foldl compressBlock sha256InitH

def wordHex (n : Nat) : String :=
  String.mk ((List.range 8).reverse.map (fun i => hexChar ((n >>> (4 * i)) % 16)))

def sha256Hex (s : String) : String :=
  String.join ((sha256Words (strUtf8 s)).map wordHex)

-- ---------------------------------------------------------------------------
-- canonical.py - canonicalize_json, fingerprint, normalize_sql
-- ---------------------------------------------------------------------------

/-
canonical.py:40-61 canonicalize_json: json.dumps with sort_keys=True,
ensure_ascii=False, separators=(",", ":") and _default_serializer for
bytes.  json.dumps sorts the keys of each object while serializing; here
each entry is rendered and the rendered entries are sorted by key, which
produces the same text.
-/
def canonicalize_json : PyValue → String
  | PyValue.none => "null"
  | PyValue.bool true => "true"
  | PyValue.bool false => "false"
  | PyValue.int n => intRepr n
  | PyValue.float q => ratRepr q
  | PyValue.str s => jsonQuoteU s
  | PyValue.bytes bs =>
    "\x7b\"__bytes__\":" ++ jsonQuoteU (base64Encode bs) ++ "\x7d"
  | PyValue.list items =>
    "[" ++ joinStr "," (items.attach.map (fun e => canonicalize_json e.1)) ++ "]"
  | PyValue.dict es =>
    let rendered := es.attach.map (fun e => (e.1.1, canonicalize_json e.1.2))
    "\x7b" ++
      joinStr "," ((List.insertionSort (fun a b => a.1 ≤ b.1) rendered).map
        (fun p => jsonQuoteU p.1 ++ ":" ++ p.2)) ++ "\x7d"
  decreasing_by
  · rcases e with ⟨v, hmem⟩
    have := List.sizeOf_lt_of_mem hmem
    simp only [PyValue.list.sizeOf_spec] at *
    omega
  · rcases e with ⟨⟨k, v⟩, hmem⟩
    have := List.sizeOf_lt_of_mem hmem
    simp only [PyValue.dict.sizeOf_spec, Prod.mk.sizeOf_spec] at *
    omega

/- canonical.py:64-77: full SHA-256 hex digest of the canonical JSON. -/
def fingerprint (obj : PyValue) : String := sha256Hex (canonicalize_json obj)

/- canonical.py:80-91 -/
def fingerprint_short (obj : PyValue) (length : Nat := 16) : String :=
  strTake (fingerprint obj) length

-- SQL normalization (canonical.py:164-223 _normalize_sql_basic; the
-- sqlparse-based variant is an optional external library and is not
-- vendored, so the basic fallback is the embedded behaviour).

/- Remove single-line comments: regex --[^\n]* (the newline survives). -/
def stripLineCommentsFuel : Nat → List Char → List Char
  | 0, l => l
  | _, [] => []
  | fuel + 1, c :: t =>
    if c = '-' ∧ t.head? = some '-' then
      stripLineCommentsFuel fuel ((c :: t).dropWhile (fun d => d ≠ '\n'))
    else c :: stripLineCommentsFuel fuel t

/- Remainder after the first closing star-slash, if any. -/
def findBlockClose : List Char → Option (List Char)
  | [] => Option.none
  | '*' :: '/' :: t => some t
  | _ :: t => findBlockClose t

/- Remove block comments: non-greedy dotall slash-star to star-slash. -/
def stripBlockCommentsFuel : Nat → List Char → List Char
  | 0, l => l
  | _, [] => []
  | fuel + 1, c :: t =>
    if c = '/' ∧ t.head? = some '*' then
      match findBlockClose (t.drop 1) with
      | some rest => stripBlockCommentsFuel fuel rest
      | Option.none => c :: stripBlockCommentsFuel fuel t
    else c :: stripBlockCommentsFuel fuel t

/- Collapse runs of whitespace to a single space: regex \s+ to " ". -/
def collapseWsAux : Bool → List Char → List Char
  | _, [] => []
  | prevWs, c :: t =>
    if c.isWhitespace then
      if prevWs then collapseWsAux true t else ' ' :: collapseWsAux true t
    else c :: collapseWsAux false t

def collapseWs (l : List Char) : List Char := collapseWsAux false l

/-
re.sub of an operator with surrounding whitespace by the bare operator:
a match is a (possibly empty) whitespace run immediately followed by the
operator, together with the trailing whitespace run; scanning is leftmost
and continues after each match.
-/
def opSubFuel (op : List Char) : Nat → List Char → List Char
  | 0, l => l
  | _, [] => []
  | fuel + 1, c :: t =>
    let ws := (c :: t).takeWhile Char.isWhitespace
    let rest := (c :: t).drop ws.length
    if op.isPrefixOf rest then
      op ++ opSubFuel op fuel ((rest.drop op.length).dropWhile Char.isWhitespace)
    else c :: opSubFuel op fuel t

def isWordChar (c : Char) : Bool := c.isAlphanum || c = '_'

/-
Case-insensitive whole-word replacement of a keyword by its uppercase
form: regex word-boundary keyword word-boundary with IGNORECASE.
prev carries the character before the scan position for the left boundary.
-/
def kwSubFuel (kw : List Char) : Option Char → Nat → List Char → List Char
  | _, 0, l => l
  | _, _, [] => []
  | prev, fuel + 1, c :: t =>
    let leftOk : Bool :=
      match prev with | Option.none => true | some p => !(isWordChar p)
    let rightOk : Bool :=
      match (c :: t).drop kw.length with
      | [] => true
      | d :: _ => !(isWordChar d)
    if ((c :: t).take kw.length).map Char.toUpper = kw ∧ leftOk ∧ rightOk then
      kw ++ kwSubFuel kw (some 'A') fuel ((c :: t).drop kw.length)
    else c :: kwSubFuel kw (some c) fuel t

def SQL_OPERATORS : List String := ["=", "!=", "<=", ">=", "<", ">"]

def SQL_KEYWORDS : List String :=
  ["SELECT", "FROM", "WHERE", "AND", "OR", "NOT", "IN", "LIKE",
   "INSERT", "INTO", "VALUES", "UPDATE", "SET", "DELETE",
   "JOIN", "LEFT", "RIGHT", "INNER", "OUTER", "ON", "AS",
   "ORDER", "BY", "GROUP", "HAVING", "LIMIT", "OFFSET",
   "CREATE", "TABLE", "DROP", "ALTER", "ADD", "COLUMN",
   "PRIMARY", "KEY", "FOREIGN", "REFERENCES", "INDEX",
   "DISTINCT", "COUNT", "SUM", "AVG", "MAX", "MIN",
   "CASE", "WHEN", "THEN", "ELSE", "END", "NULL", "IS"]

def _normalize_sql_basic (query : String) (strip_comments : Bool) : String :=
  let q1 :=
    if strip_comments then
      let a := stripLineCommentsFuel query.data.length query.data
      stripBlockCommentsFuel a.length a
    else query.data
  let q2 := collapseWs q1
  let q3 := SQL_OPERATORS.foldl (fun acc op =>
    let s1 := opSubFuel op.data acc.length acc
    replaceFuel op.data ([' '] ++ op.data ++ [' ']) s1.length s1) q2
  let q4 := collapseWs q3
  let q5 := SQL_KEYWORDS.foldl (fun acc kw =>
    kwSubFuel kw.data Option.none acc.length acc) q4
  pyStrip (String.mk q5)

/- canonical.py:94-127; the empty query is returned unchanged. -/
def normalize_sql (query : String) (strip_comments : Bool := true) : String :=
  if query = "" then query else _normalize_sql_basic query strip_comments

/- canonical.py:226-247 -/
def fingerprint_sql (query : String) (strip_comments : Bool := true) : String :=
  fingerprint (PyValue.str (normalize_sql query strip_comments))

-- ---------------------------------------------------------------------------
-- trace.py - @sim_trace sync wrapper
-- ---------------------------------------------------------------------------

/-
Python round(x, n): round-half-to-even at n decimal places (exact on the
embedded rationals; Python applies it to the nearest double).
-/
def roundHalfEven (q : Rat) : Int :=
  let f := q.floor
  let r := q - (f : Rat)
  if r < 1 / 2 then f
  else if (1 : Rat) / 2 < r then f + 1
  else if f % 2 = 0 then f else f + 1

def pyRound (q : Rat) (ndigits : Nat) : Rat :=
  ((roundHalfEven (q * (10 : Rat) ^ ndigits) : Rat)) / (10 : Rat) ^ ndigits

/-
trace.py:39-69 SimStubMissError: diagnostics carried as attributes plus the
rendered message.
-/
structure SimStubMissError where
  qualname : String
  input_fingerprint : String
  ordinal : Nat
  stub_dir : Option String
  message : String

/- trace.py:115-121 -/
def _fixture_key (qualname input_fp : String) (ordinal : Nat) : String :=
  let safe_name :=
    pyReplace (pyReplace (pyReplace qualname "." "_") "<" "") ">" ""
  safe_name ++ "/" ++ strTake input_fp 16 ++ "_" ++ natRepr ordinal ++ ".json"

/- trace.py:49-69 SimStubMissError.__init__ message construction. -/
def mkStubMissError (qualname input_fingerprint : String) (ordinal : Nat)
    (stub_dir : Option String) : SimStubMissError :=
  let msg := "No recorded fixture for " ++ qualname ++ " (fingerprint=" ++
    strTake input_fingerprint 16 ++ ", ordinal=" ++ natRepr ordinal ++ ")"
  let msg :=
    match stub_dir with
    | Option.none => msg
    | some d =>
      msg ++ "\n  Expected at: " ++ d ++ "/" ++
        _fixture_key qualname input_fingerprint ordinal
  { qualname := qualname, input_fingerprint := input_fingerprint,
    ordinal := ordinal, stub_dir := stub_dir, message := msg }

/- trace.py:76-108 FixtureEvent (to_dict is the identity on these fields). -/
structure FixtureEvent where
  fixture_id : String
  qualname : String
  run_id : String
  recorded_at : String
  input : List (String × PyValue) := []
  input_fingerprint : String := ""
  output : PyValue := PyValue.none
  output_fingerprint : String := ""
  stubs : List PyValue := []
  duration_ms : Rat := 0
  error : Option String := Option.none
  ordinal : Nat := 0

/- trace.py:124-126 -/
def _compute_fingerprint (qualname : String)
    (args_data : List (String × PyValue)) : String :=
  fingerprint (PyValue.dict
    [("qualname", PyValue.str qualname), ("args", PyValue.dict args_data)])

/-
trace.py:158-169 _prepare_call.  The bound-argument map produced by
inspect.signature/_bind_args is the args_data input (binding machinery is
Python runtime reflection, outside the embedding); the fingerprint and the
ordinal assignment are embedded.
-/
def _prepare_call (qualname : String) (args_data : List (String × PyValue))
    (ctx : SimContext) : String × Nat × SimContext :=
  let input_fp := _compute_fingerprint qualname args_data
  let r := ctx.next_ordinal input_fp
  (input_fp, r.1, r.2)

/-
trace.py:174-193 _write_fixture: the event goes to the sink when one is
configured, otherwise to a file under stub_dir, otherwise it is discarded.
The two destinations are recorded as (key, event) lists.
-/
structure WriteOut where
  sinkWrites : List (String × FixtureEvent) := []
  fileWrites : List (String × FixtureEvent) := []

def _write_fixture (event : FixtureEvent) (ctx : SimContext) : WriteOut :=
  if ctx.hasSink then
    { sinkWrites :=
        [(_fixture_key event.qualname event.input_fingerprint event.ordinal,
          event)] }
  else
    match ctx.stub_dir with
    | some _ =>
      { fileWrites :=
          [(_fixture_key event.qualname event.input_fingerprint event.ordinal,
            event)] }
    | Option.none => {}

/-
trace.py:210-249 _emit_record: build the FixtureEvent, persist it, and when
nested inside an outer trace push a stub descriptor.  fixture_uuid and
recorded_at stand for uuid.uuid4() and datetime.now.
-/
def _emit_record (qualname : String) (ctx : SimContext)
    (args_data : List (String × PyValue)) (input_fp : String) (ordinal : Nat)
    (output : PyValue) (error_msg : Option String) (duration_ms : Rat)
    (inner_stubs : List PyValue) (fixture_uuid recorded_at : String) :
    FixtureEvent × WriteOut × SimContext :=
  let output_data := _make_serializable output
  let output_fp :=
    match output with
    | PyValue.none => ""
    | _ => fingerprint output_data
  let event : FixtureEvent :=
    { fixture_id := strTake fixture_uuid 8,
      qualname := qualname,
      run_id := ctx.run_id,
      recorded_at := recorded_at,
      input := args_data,
      input_fingerprint := input_fp,
      output := output_data,
      output_fingerprint := output_fp,
      stubs := inner_stubs,
      duration_ms := pyRound duration_ms 2,
      error := error_msg,
      ordinal := ordinal }
  let w := _write_fixture event ctx
  let ctx' :=
    if ctx.trace_depth > 0 then
      { ctx with collected_stubs := ctx.collected_stubs ++
          [PyValue.dict
            [("qualname", PyValue.str qualname),
             ("input", PyValue.dict args_data),
             ("output", output_data),
             ("source", PyValue.str "record")]] }
    else ctx
  (event, w, ctx')

/-
trace.py:254-280 _replay: look the fixture up under stub_dir; never touches
the wrapped function.  The filesystem under stub_dir is the store
parameter, keyed by the relative fixture key.
-/
def _replay (qualname input_fp : String) (ordinal : Nat)
    (args_data : List (String × PyValue))
    (store : String → Option (List (String × PyValue))) (ctx : SimContext) :
    Except SimStubMissError (PyValue × SimContext) :=
  match ctx.stub_dir with
  | Option.none =>
    Except.error (mkStubMissError qualname input_fp ordinal Option.none)
  | some d =>
    match store (_fixture_key qualname input_fp ordinal) with
    | Option.none =>
      Except.error (mkStubMissError qualname input_fp ordinal (some d))
    | some fixture_data =>
      let output := dictGet fixture_data "output"
      let ctx' :=
        if ctx.trace_depth > 0 then
          { ctx with collected_stubs := ctx.collected_stubs ++
              [PyValue.dict
                [("qualname", PyValue.str qualname),
                 ("input", PyValue.dict args_data),
                 ("output", output),
                 ("source", PyValue.str "replay")]] }
        else ctx
      Except.ok (output, ctx')

inductive TraceError (ε : Type) where
  | stubMiss (e : SimStubMissError) : TraceError ε
  | raised (ex : ε) : TraceError ε

structure WrapperOut (ε : Type) where
  result : Except (TraceError ε) PyValue
  bodyExecuted : Bool
  ctx : SimContext
  emitted : List FixtureEvent
  writes : WriteOut

/- The context handed to the wrapped function in record mode
(trace.py:359, 365: _prepare_call then ctx.trace_depth += 1). -/
def recordEntryCtx (qualname : String) (args_data : List (String × PyValue))
    (ctx : SimContext) : SimContext :=
  let p := _prepare_call qualname args_data ctx
  { p.2.2 with trace_depth := p.2.2.trace_depth + 1 }

/-
trace.py:353-384 sync_wrapper.  The wrapped function is a state
transformer on SimContext returning either a value or a raised exception
of type e (descr renders the record-mode error string
type(e).__name__ + ": " + str(e)); uuid, wall clock and the fixture store
are parameters.  bodyExecuted records whether the wrapped function was
invoked.
-/
def sync_wrapper {ε : Type} (descr : ε → String) (qualname : String)
    (args_data : List (String × PyValue))
    (body : SimContext → Except ε PyValue × SimContext)
    (store : String → Option (List (String × PyValue)))
    (fixture_uuid recorded_at : String) (duration_ms : Rat)
    (ctx : SimContext) : WrapperOut ε :=
  if ctx.is_active then
    let p := _prepare_call qualname args_data ctx
    let input_fp := p.1
    let ordinal := p.2.1
    let ctx1 := p.2.2
    if ctx1.is_replaying then
      match _replay qualname input_fp ordinal args_data store ctx1 with
      | Except.error e =>
        { result := Except.error (TraceError.stubMiss e),
          bodyExecuted := false, ctx := ctx1, emitted := [], writes := {} }
      | Except.ok r =>
        { result := Except.ok r.1, bodyExecuted := false, ctx := r.2,
          emitted := [], writes := {} }
    else
      let ctxB := recordEntryCtx qualname args_data ctx
      let stubs_snapshot := ctxB.collected_stubs.length
      let br := body ctxB
      let ctx2 := br.2
      let outputAndErr : PyValue × Option String :=
        match br.1 with
        | Except.ok v => (v, Option.none)
        | Except.error e => (PyValue.none, some (descr e))
      let ctx3 := { ctx2 with trace_depth := ctx2.trace_depth - 1 }
      let inner_stubs := ctx2.collected_stubs.drop stubs_snapshot
      let ctx4 := { ctx3 with
        collected_stubs := ctx2.collected_stubs.take stubs_snapshot }
      let er := _emit_record qualname ctx4 args_data input_fp ordinal
        outputAndErr.1 outputAndErr.2 duration_ms inner_stubs fixture_uuid
        recorded_at
      { result := br.1.mapError TraceError.raised, bodyExecuted := true,
        ctx := er.2.2, emitted := [er.1], writes := er.2.1 }
  else
    let r := body ctx
    { result := r.1.mapError TraceError.raised, bodyExecuted := true,
      ctx := r.2, emitted := [], writes := {} }

/--
C1 (counterexample to the claim as stated).  In replay mode with no
stub_dir configured, the stub-miss error is raised and the wrapped
function is not invoked, but the error does NOT carry an expected path:
its stub_dir field is none (trace.py:262-263 raises
SimStubMissError(qualname, input_fp, ordinal) with stub_dir=None, and
__init__ then omits the "Expected at" diagnostic).  The claim asserts the
error carries the expected path in this case as well.
-/
theorem C1_trace_replay_counterexample :
    (sync_wrapper (fun e : String => e) "f" []
        (fun c => (Except.ok (PyValue.int 0), c)) (fun _ => Option.none)
        "u" "t" 0 { mode := SimMode.REPLAY }).bodyExecuted = false ∧
    (sync_wrapper (fun e : String => e) "f" []
        (fun c => (Except.ok (PyValue.int 0), c)) (fun _ => Option.none)
        "u" "t" 0 { mode := SimMode.REPLAY }).result =
      Except.error (TraceError.stubMiss
        (mkStubMissError "f" (_compute_fingerprint "f" []) 0 Option.none)) ∧
    (mkStubMissError "f" (_compute_fingerprint "f" []) 0 Option.none).stub_dir
      = Option.none := by
  exact ⟨rfl, rfl, rfl⟩

/--
C1 (amended).  For every invocation of a sim_trace-decorated function in
replay mode the wrapped function body is never executed; if a fixture
exists at the key (qualname, input_fingerprint, ordinal) the call returns
that fixture's output field; if no such fixture exists under a configured
stub_dir, a stub-miss error is raised carrying the qualname, the input
fingerprint, the ordinal and the expected path; and if no stub_dir is
configured the stub-miss error carries the qualname, the fingerprint and
the ordinal but no expected path.
-/
theorem C1_trace_replay_amended {ε : Type} (descr : ε → String)
    (qualname : String) (args_data : List (String × PyValue))
    (body : SimContext → Except ε PyValue × SimContext)
    (store : String → Option (List (String × PyValue)))
    (u t : String) (dur : Rat) (ctx : SimContext)
    (hmode : ctx.mode = SimMode.REPLAY) :
    (sync_wrapper descr qualname args_data body store u t dur ctx).bodyExecuted
        = false ∧
    (∀ fx, ctx.stub_dir ≠ Option.none →
      store (_fixture_key qualname (_compute_fingerprint qualname args_data)
        (ctx.ordinal_counters (_compute_fingerprint qualname args_data)))
        = some fx →
      (sync_wrapper descr qualname args_data body store u t dur ctx).result
        = Except.ok (dictGet fx "output")) ∧
    (∀ d, ctx.stub_dir = some d →
      store (_fixture_key qualname (_compute_fingerprint qualname args_data)
        (ctx.ordinal_counters (_compute_fingerprint qualname args_data)))
        = Option.none →
      (sync_wrapper descr qualname args_data body store u t dur ctx).result
        = Except.error (TraceError.stubMiss (mkStubMissError qualname
            (_compute_fingerprint qualname args_data)
            (ctx.ordinal_counters (_compute_fingerprint qualname args_data))
            (some d)))) ∧
    (ctx.stub_dir = Option.none →
      (sync_wrapper descr qualname args_data body store u t dur ctx).result
        = Except.error (TraceError.stubMiss (mkStubMissError qualname
            (_compute_fingerprint qualname args_data)
            (ctx.ordinal_counters (_compute_fingerprint qualname args_data))
            Option.none))) := by
  have hact : ctx.is_active = true := by
    simp [SimContext.is_active, hmode]
  have hrep : ∀ c : SimContext, c.mode = SimMode.REPLAY →
      c.is_replaying = true := by
    intro c hc; simp [SimContext.is_replaying, hc]
  refine ⟨?_, ?_, ?_, ?_⟩
  · rcases hd : ctx.stub_dir with _ | d
    · simp [sync_wrapper, _prepare_call, _replay, SimContext.next_ordinal,
        hact, hrep, hmode, hd]
    · rcases hs : store (_fixture_key qualname
        (_compute_fingerprint qualname args_data)
        (ctx.ordinal_counters (_compute_fingerprint qualname args_data)))
        with _ | fx
      · simp [sync_wrapper, _prepare_call, _replay, SimContext.next_ordinal,
          hact, hrep, hmode, hd, hs]
      · simp [sync_wrapper, _prepare_call, _replay, SimContext.next_ordinal,
          hact, hrep, hmode, hd, hs]
  · intro fx hne hs
    rcases hd : ctx.stub_dir with _ | d
    · exact absurd hd hne
    · simp [sync_wrapper, _prepare_call, _replay, SimContext.next_ordinal,
        hact, hrep, hmode, hd, hs]
  · intro d hd hs
    simp [sync_wrapper, _prepare_call, _replay, SimContext.next_ordinal,
      hact, hrep, hmode, hd, hs]
  · intro hd
    simp [sync_wrapper, _prepare_call, _replay, SimContext.next_ordinal,
      hact, hrep, hmode, hd]

/--
Witness for the amended C1: a concrete replay call whose store holds a
fixture with output 7 returns that output without executing the body.
-/
theorem C1_trace_replay_amended_witness :
    (sync_wrapper (fun e : String => e) "f" []
        (fun c => (Except.ok (PyValue.int 5), c))
        (fun _ => some [("output", PyValue.int 7)])
        "u" "t" 0
        { mode := SimMode.REPLAY, stub_dir := some "/stubs" }).bodyExecuted
      = false ∧
    (sync_wrapper (fun e : String => e) "f" []
        (fun c => (Except.ok (PyValue.int 5), c))
        (fun _ => some [("output", PyValue.int 7)])
        "u" "t" 0 { mode := SimMode.REPLAY, stub_dir := some "/stubs" }).result
      = Except.ok (dictGet [("output", PyValue.int 7)] "output") :=
  ⟨(C1_trace_replay_amended (fun e : String => e) "f" []
      (fun c => (Except.ok (PyValue.int 5), c))
      (fun _ => some [("output", PyValue.int 7)]) "u" "t" 0
      { mode := SimMode.REPLAY, stub_dir := some "/stubs" } rfl).1,
   (C1_trace_replay_amended (fun e : String => e) "f" []
      (fun c => (Except.ok (PyValue.int 5), c))
      (fun _ => some [("output", PyValue.int 7)]) "u" "t" 0
      { mode := SimMode.REPLAY, stub_dir := some "/stubs" } rfl).2.1
    [("output", PyValue.int 7)] (by simp) rfl⟩

/--
C4.  For every record-mode invocation of a sim_trace-decorated function
whose wrapped function raises: the exception propagates unchanged, and
exactly one fixture event is still emitted, with error set to the
exception description, output None and an empty output fingerprint.
-/
theorem C4_record_error_emits_fixture {ε : Type} (descr : ε → String)
    (qualname : String) (args_data : List (String × PyValue))
    (body : SimContext → Except ε PyValue × SimContext)
    (store : String → Option (List (String × PyValue)))
    (u t : String) (dur : Rat) (ctx : SimContext) (ex : ε)
    (hmode : ctx.mode = SimMode.RECORD)
    (hb : (body (recordEntryCtx qualname args_data ctx)).1 = Except.error ex) :
    (sync_wrapper descr qualname args_data body store u t dur ctx).result
      = Except.error (TraceError.raised ex) ∧
    (sync_wrapper descr qualname args_data body store u t dur ctx).emitted.length
      = 1 ∧
    ∀ ev ∈ (sync_wrapper descr qualname args_data body store u t dur ctx).emitted,
      ev.error = some (descr ex) ∧ ev.output = PyValue.none ∧
      ev.output_fingerprint = "" ∧ ev.qualname = qualname ∧
      ev.input_fingerprint = _compute_fingerprint qualname args_data := by
  have hact : ctx.is_active = true := by simp [SimContext.is_active, hmode]
  have hnorep : ((_prepare_call qualname args_data ctx).2.2).is_replaying
      = false := by
    simp [SimContext.is_replaying, _prepare_call, SimContext.next_ordinal, hmode]
  refine ⟨?_, ?_, ?_⟩
  · simp [sync_wrapper, hact, hnorep, hb, Except.mapError]
  · simp [sync_wrapper, hact, hnorep, hb, _emit_record]
  · intro ev hev
    simp [sync_wrapper, hact, hnorep, hb, _emit_record] at hev
    subst hev
    simp [_make_serializable, _prepare_call]

/--
Witness for C4: a record-mode call whose body raises "ValueError: boom"
propagates it and emits one fixture event with the error string, output
None and empty output fingerprint.
-/
theorem C4_record_error_emits_fixture_witness :
    (sync_wrapper (fun e : String => e) "g" []
        (fun c => (Except.error "ValueError: boom", c)) (fun _ => Option.none)
        "u" "t" 0 { mode := SimMode.RECORD }).result
      = Except.error (TraceError.raised "ValueError: boom") ∧
    (sync_wrapper (fun e : String => e) "g" []
        (fun c => (Except.error "ValueError: boom", c)) (fun _ => Option.none)
        "u" "t" 0 { mode := SimMode.RECORD }).emitted.length = 1 ∧
    ∀ ev ∈ (sync_wrapper (fun e : String => e) "g" []
        (fun c => (Except.error "ValueError: boom", c)) (fun _ => Option.none)
        "u" "t" 0 { mode := SimMode.RECORD }).emitted,
      ev.error = some ((fun e : String => e) "ValueError: boom") ∧
      ev.output = PyValue.none ∧ ev.output_fingerprint = "" ∧
      ev.qualname = "g" ∧ ev.input_fingerprint = _compute_fingerprint "g" [] :=
  C4_record_error_emits_fixture (fun e : String => e) "g" []
    (fun c => (Except.error "ValueError: boom", c)) (fun _ => Option.none)
    "u" "t" 0 { mode := SimMode.RECORD } "ValueError: boom" rfl rfl

-- ---------------------------------------------------------------------------
-- db.py - write detection and DBProxy call interception
-- ---------------------------------------------------------------------------

def _WRITE_PREFIXES : List String :=
  ["INSERT", "UPDATE", "DELETE", "DROP", "ALTER", "TRUNCATE"]

/- db.py:58-70 -/
def _is_write_statement (sql : String) : Bool :=
  let normalized := pyUpper (pyStrip sql)
  if pyStartsWith normalized "WITH" then
    _WRITE_PREFIXES.any (fun p => pyContains normalized p)
  else
    _WRITE_PREFIXES.any (fun p => pyStartsWith normalized p)

/- db.py:32-48 SimWriteBlockedError with its rendered message. -/
structure SimWriteBlockedError where
  sql : String
  name : String
  message : String

def mkWriteBlockedError (sql : String) (name : String) : SimWriteBlockedError :=
  let sql_preview :=
    strTake sql 80 ++ (if 80 < sql.data.length then "..." else "")
  { sql := sql, name := name,
    message := "Write statement blocked in replay mode [" ++ name ++ "]: " ++
      sql_preview }

/- db.py:77-83 -/
def _db_fixture_key (name sql_fp params_fp : String) (ordinal : Nat) : String :=
  let safe_name := pyReplace (pyReplace (pyReplace name "." "_") "/" "_") " " "_"
  "__db__/" ++ safe_name ++ "_" ++ strTake sql_fp 8 ++ "_" ++
    strTake params_fp 8 ++ "_" ++ natRepr ordinal ++ ".json"

/- db.py:86-95 -/
def _compute_query_fingerprint (sql : String) (params : Option PyValue) :
    String × String :=
  let sql_fp := fingerprint_sql sql
  let params_data :=
    match params with
    | some p => some (_make_serializable p)
    | Option.none => Option.none
  let params_fp :=
    match params_data with
    | some pd => fingerprint pd
    | Option.none => fingerprint (PyValue.str "")
  (sql_fp, params_fp)

inductive DBError where
  | writeBlocked (e : SimWriteBlockedError) : DBError
  | stubMiss (e : SimStubMissError) : DBError

/- db.py:98-133 _write_db_fixture: sink when present, else stub_dir file. -/
structure DBWriteOut where
  sinkWrites : List (String × PyValue) := []
  fileWrites : List (String × PyValue) := []

def _write_db_fixture (name sql : String) (params : Option PyValue)
    (sql_fp params_fp : String) (ordinal : Nat) (result : PyValue)
    (ctx : SimContext) : DBWriteOut :=
  let data := PyValue.dict
    [("type", PyValue.str "db_query"), ("name", PyValue.str name),
     ("sql", PyValue.str sql),
     ("params", match params with
       | some p => _make_serializable p
       | Option.none => PyValue.none),
     ("sql_fingerprint", PyValue.str sql_fp),
     ("params_fingerprint", PyValue.str params_fp),
     ("ordinal", PyValue.int ordinal),
     ("result", _make_serializable result)]
  let key := _db_fixture_key name sql_fp params_fp ordinal
  if ctx.hasSink then { sinkWrites := [(key, data)] }
  else
    match ctx.stub_dir with
    | some _ => { fileWrites := [(key, data)] }
    | Option.none => {}

/-
db.py:217-247 DBProxy._replay_call.  The second component lists the
fixture keys actually read; on a blocked write it is empty because the
write check precedes any store access.
-/
def _replay_call (sql : String) (params : Option PyValue)
    (sql_fp params_fp : String) (ordinal : Nat) (name : String)
    (store : String → Option (List (String × PyValue))) (ctx : SimContext) :
    Except DBError (PyValue × SimContext) × List String :=
  if _is_write_statement sql then
    (Except.error (DBError.writeBlocked (mkWriteBlockedError sql name)), [])
  else
    match ctx.stub_dir with
    | Option.none =>
      (Except.error (DBError.stubMiss (mkStubMissError ("db:" ++ name)
        (strTake sql_fp 16 ++ ":" ++ strTake params_fp 16) ordinal
        Option.none)), [])
    | some d =>
      let key := _db_fixture_key name sql_fp params_fp ordinal
      match store key with
      | Option.none =>
        (Except.error (DBError.stubMiss (mkStubMissError ("db:" ++ name)
          (strTake sql_fp 16 ++ ":" ++ strTake params_fp 16) ordinal
          (some d))), [key])
      | some fixture =>
        let result := dictGet fixture "result"
        let ctx' := { ctx with collected_stubs := ctx.collected_stubs ++
          [PyValue.dict
            [("type", PyValue.str "db_query"), ("name", PyValue.str name),
             ("sql", PyValue.str sql), ("ordinal", PyValue.int ordinal),
             ("result", result), ("source", PyValue.str "replay")]] }
        (Except.ok (result, ctx'), [key])

/-
db.py:249-279 DBProxy._record_call.  The real query/execute call is the db
parameter; the proxy-local _queries_captured log is bookkeeping on the
proxy object and is not part of this embedding.
-/
def _record_call (sql : String) (params : Option PyValue)
    (sql_fp params_fp : String) (ordinal : Nat) (name : String)
    (db : String → Option PyValue → PyValue) (ctx : SimContext) :
    PyValue × DBWriteOut × SimContext :=
  let result := db sql params
  let w := _write_db_fixture name sql params sql_fp params_fp ordinal result ctx
  let ctx' := { ctx with collected_stubs := ctx.collected_stubs ++
    [PyValue.dict
      [("type", PyValue.str "db_query"), ("name", PyValue.str name),
       ("sql", PyValue.str sql), ("ordinal", PyValue.int ordinal),
       ("result", _make_serializable result),
       ("source", PyValue.str "record")]] }
  (result, w, ctx')

structure InterceptOut where
  result : Except DBError PyValue
  dbCalled : Bool
  readKeys : List String
  writes : DBWriteOut
  ctx : SimContext

/-
db.py:188-215 DBProxy._intercept_call: fingerprints and ordinal first,
then replay / record / passthrough on the context mode.  dbCalled records
whether the underlying query/execute method was invoked.
-/
def _intercept_call (sql : String) (params : Option PyValue) (name : String)
    (db : String → Option PyValue → PyValue)
    (store : String → Option (List (String × PyValue)))
    (ctx : SimContext) : InterceptOut :=
  let fps := _compute_query_fingerprint sql params
  let sql_fp := fps.1
  let params_fp := fps.2
  let combined_fp := "db:" ++ name ++ ":" ++ strTake sql_fp 16 ++ ":" ++
    strTake params_fp 16
  let r := ctx.next_ordinal combined_fp
  let ordinal := r.1
  let ctx1 := r.2
  if ctx1.is_replaying then
    match _replay_call sql params sql_fp params_fp ordinal name store ctx1 with
    | (Except.error e, ks) =>
      { result := Except.error e, dbCalled := false, readKeys := ks,
        writes := {}, ctx := ctx1 }
    | (Except.ok rr, ks) =>
      { result := Except.ok rr.1, dbCalled := false, readKeys := ks,
        writes := {}, ctx := rr.2 }
  else if ctx1.is_recording then
    let rec_out := _record_call sql params sql_fp params_fp ordinal name db ctx1
    { result := Except.ok rec_out.1, dbCalled := true, readKeys := [],
      writes := rec_out.2.1, ctx := rec_out.2.2 }
  else
    { result := Except.ok (db sql params), dbCalled := true, readKeys := [],
      writes := {}, ctx := ctx1 }

/--
C2.  For every db-proxy query/execute call in replay mode on a write
statement (per _is_write_statement: stripped uppercased SQL starting with
INSERT/UPDATE/DELETE/DROP/ALTER/TRUNCATE, or starting with WITH and
containing one of those tokens), SimWriteBlockedError is raised carrying
the offending SQL (truncated to 80 characters in the message) and the
connection name; no fixture key is read, nothing is written, and the
underlying DB object is not called.
-/
theorem C2_db_replay_blocks_writes (sql : String) (params : Option PyValue)
    (name : String) (db : String → Option PyValue → PyValue)
    (store : String → Option (List (String × PyValue))) (ctx : SimContext)
    (hmode : ctx.mode = SimMode.REPLAY)
    (hw : _is_write_statement sql = true) :
    (_intercept_call sql params name db store ctx).result
      = Except.error (DBError.writeBlocked (mkWriteBlockedError sql name)) ∧
    (_intercept_call sql params name db store ctx).dbCalled = false ∧
    (_intercept_call sql params name db store ctx).readKeys = [] ∧
    (_intercept_call sql params name db store ctx).writes = {} ∧
    (mkWriteBlockedError sql name).sql = sql ∧
    (mkWriteBlockedError sql name).name = name ∧
    (mkWriteBlockedError sql name).message
      = "Write statement blocked in replay mode [" ++ name ++ "]: " ++
        (strTake sql 80 ++ if 80 < sql.data.length then "..." else "") := by
  have hrep : ∀ c : SimContext, c.mode = SimMode.REPLAY →
      c.is_replaying = true := by
    intro c hc; simp [SimContext.is_replaying, hc]
  refine ⟨?_, ?_, ?_, ?_, rfl, rfl, rfl⟩ <;>
    simp [_intercept_call, _replay_call, SimContext.next_ordinal, hrep, hmode,
      hw]

/--
Witness for C2: a concrete INSERT in replay mode is blocked with the
expected diagnostics, without reading fixtures or touching the DB object.
-/
theorem C2_db_replay_blocks_writes_witness :
    (_intercept_call "INSERT INTO users VALUES (1)" Option.none "postgres"
        (fun _ _ => PyValue.none) (fun _ => Option.none)
        { mode := SimMode.REPLAY }).result
      = Except.error (DBError.writeBlocked
          (mkWriteBlockedError "INSERT INTO users VALUES (1)" "postgres")) ∧
    (_intercept_call "INSERT INTO users VALUES (1)" Option.none "postgres"
        (fun _ _ => PyValue.none) (fun _ => Option.none)
        { mode := SimMode.REPLAY }).dbCalled = false ∧
    (_intercept_call "INSERT INTO users VALUES (1)" Option.none "postgres"
        (fun _ _ => PyValue.none) (fun _ => Option.none)
        { mode := SimMode.REPLAY }).readKeys = [] ∧
    (_intercept_call "INSERT INTO users VALUES (1)" Option.none "postgres"
        (fun _ _ => PyValue.none) (fun _ => Option.none)
        { mode := SimMode.REPLAY }).writes = {} ∧
    (mkWriteBlockedError "INSERT INTO users VALUES (1)" "postgres").sql
      = "INSERT INTO users VALUES (1)" ∧
    (mkWriteBlockedError "INSERT INTO users VALUES (1)" "postgres").name
      = "postgres" ∧
    (mkWriteBlockedError "INSERT INTO users VALUES (1)" "postgres").message
      = "Write statement blocked in replay mode [" ++ "postgres" ++ "]: " ++
        (strTake "INSERT INTO users VALUES (1)" 80 ++
          if 80 < "INSERT INTO users VALUES (1)".data.length then "..."
          else "") :=
  C2_db_replay_blocks_writes "INSERT INTO users VALUES (1)" Option.none
    "postgres" (fun _ _ => PyValue.none) (fun _ => Option.none)
    { mode := SimMode.REPLAY } rfl (by decide)

-- ---------------------------------------------------------------------------
-- capture.py - CaptureHandle and sim_capture
-- ---------------------------------------------------------------------------

/- capture.py:36-43 -/
def _capture_key (label : String) (ordinal : Nat) : String :=
  let safe_label :=
    pyReplace (pyReplace (pyReplace label "." "_") "/" "_") " " "_"
  "__capture__/" ++ safe_label ++ "_" ++ natRepr ordinal ++ ".json"

/-
capture.py:93-141 CaptureHandle.  The _result/_result_set attributes are
fields; the context back-reference is passed to the operations instead.
-/
structure CaptureHandle where
  label : String
  ordinal : Nat
  result : PyValue := PyValue.none
  result_set : Bool := false
  replaying : Bool := false

/-
capture.py:101-126 CaptureHandle.__init__ plus _load_recorded: in replay
the recorded value is loaded eagerly (raising stub-miss when absent), with
result_set set to true.
-/
def mkCaptureHandle (label : String) (ordinal : Nat) (ctx : SimContext)
    (store : String → Option (List (String × PyValue))) :
    Except SimStubMissError CaptureHandle :=
  if ctx.is_replaying then
    match ctx.stub_dir with
    | Option.none =>
      Except.error (mkStubMissError ("capture:" ++ label) "" ordinal
        Option.none)
    | some d =>
      match store (_capture_key label ordinal) with
      | Option.none =>
        Except.error (mkStubMissError ("capture:" ++ label) "" ordinal
          (some d))
      | some data =>
        Except.ok { label := label, ordinal := ordinal,
                    result := dictGet data "result", result_set := true,
                    replaying := true }
  else
    Except.ok { label := label, ordinal := ordinal, replaying := false }

/- capture.py:133-140: set_result stores the value in every mode. -/
def CaptureHandle.set_result (h : CaptureHandle) (value : PyValue) :
    CaptureHandle :=
  { h with result := value, result_set := true }

/-
capture.py:176-188 sim_capture._setup: ordinal consumed only when active.
Returns the handle, the updated context and the ordinal remembered on the
manager instance.
-/
def sim_capture_setup (label : String) (ctx : SimContext)
    (store : String → Option (List (String × PyValue))) :
    Except SimStubMissError (CaptureHandle × SimContext × Nat) :=
  if ctx.is_active then
    let r := ctx.next_ordinal ("capture:" ++ label)
    match mkCaptureHandle label r.1 r.2 store with
    | Except.error e => Except.error e
    | Except.ok h => Except.ok (h, r.2, r.1)
  else
    match mkCaptureHandle label 0 ctx store with
    | Except.error e => Except.error e
    | Except.ok h => Except.ok (h, ctx, 0)

/-
capture.py:46-76 _write_capture.  The sink branch constructs a
FixtureEvent imported from fixture.schema - a class that module does not
define (latent ImportError in the source); the kwargs it passes are
embedded as a dict.  The stub_dir branch writes the capture data dict.
-/
structure CaptureWriteOut where
  sinkEmits : List PyValue := []
  fileWrites : List (String × PyValue) := []

def _write_capture (label : String) (ordinal : Nat) (result : PyValue)
    (ctx : SimContext) (fixture_uuid recorded_at : String) : CaptureWriteOut :=
  let key := _capture_key label ordinal
  if ctx.hasSink then
    { sinkEmits := [PyValue.dict
        [("fixture_id", PyValue.str (strTake fixture_uuid 8)),
         ("qualname", PyValue.str ("capture:" ++ label)),
         ("run_id", PyValue.str ctx.run_id),
         ("recorded_at", PyValue.str recorded_at),
         ("output", _make_serializable result),
         ("ordinal", PyValue.int ordinal),
         ("storage_key", PyValue.str key)]] }
  else
    match ctx.stub_dir with
    | some _ =>
      { fileWrites := [(key, PyValue.dict
          [("type", PyValue.str "capture"), ("label", PyValue.str label),
           ("ordinal", PyValue.int ordinal),
           ("result", _make_serializable result)])] }
    | Option.none => {}

/-
capture.py:190-223 sim_capture._teardown: in record mode push the stub and
persist the capture (warning when set_result was omitted); in replay mode
push the stub with the handle's current result and source="replay".
-/
structure CaptureTeardownOut where
  ctx : SimContext
  writes : CaptureWriteOut := {}
  warnedMissingResult : Bool := false

def sim_capture_teardown (label : String) (ordinal : Nat)
    (handle : CaptureHandle) (ctx : SimContext)
    (fixture_uuid recorded_at : String) : CaptureTeardownOut :=
  if ctx.is_active = false then { ctx := ctx }
  else if ctx.is_recording then
    let ctx' := { ctx with collected_stubs := ctx.collected_stubs ++
      [PyValue.dict
        [("type", PyValue.str "capture"), ("label", PyValue.str label),
         ("ordinal", PyValue.int ordinal),
         ("result", _make_serializable handle.result)]] }
    { ctx := ctx',
      writes := _write_capture label ordinal handle.result ctx fixture_uuid
        recorded_at,
      warnedMissingResult := !handle.result_set }
  else if ctx.is_replaying then
    { ctx := { ctx with collected_stubs := ctx.collected_stubs ++
        [PyValue.dict
          [("type", PyValue.str "capture"), ("label", PyValue.str label),
           ("ordinal", PyValue.int ordinal),
           ("result", _make_serializable handle.result),
           ("source", PyValue.str "replay")]] } }
  else { ctx := ctx }

/--
C10.  set_result is effective in every mode including replay: for a
capture handle pre-loaded in replay with the recorded value r, calling
set_result v makes the handle's result v, and the stub descriptor pushed
onto collected_stubs at scope exit carries v (serialized), not r.
set_result itself is mode-independent.
-/
theorem C10_set_result_overrides_in_replay (label : String)
    (ctx : SimContext) (store : String → Option (List (String × PyValue)))
    (d : String) (data : List (String × PyValue)) (v : PyValue)
    (hmode : ctx.mode = SimMode.REPLAY) (hd : ctx.stub_dir = some d)
    (hs : store (_capture_key label
      (ctx.ordinal_counters ("capture:" ++ label))) = some data) :
    ∃ h ctx1,
      sim_capture_setup label ctx store
        = Except.ok (h, ctx1, ctx.ordinal_counters ("capture:" ++ label)) ∧
      h.replaying = true ∧
      h.result = dictGet data "result" ∧
      (h.set_result v).result = v ∧
      (sim_capture_teardown label
          (ctx.ordinal_counters ("capture:" ++ label)) (h.set_result v) ctx1
          "u" "t").ctx.collected_stubs
        = ctx.collected_stubs ++
          [PyValue.dict
            [("type", PyValue.str "capture"), ("label", PyValue.str label),
             ("ordinal", PyValue.int
                (ctx.ordinal_counters ("capture:" ++ label))),
             ("result", _make_serializable v),
             ("source", PyValue.str "replay")]] := by
  have hact : ctx.is_active = true := by simp [SimContext.is_active, hmode]
  have hrep : ∀ c : SimContext, c.mode = SimMode.REPLAY →
      c.is_replaying = true := by
    intro c hc; simp [SimContext.is_replaying, hc]
  refine ⟨{ label := label,
            ordinal := ctx.ordinal_counters ("capture:" ++ label),
            result := dictGet data "result", result_set := true,
            replaying := true },
          (ctx.next_ordinal ("capture:" ++ label)).2, ?_, rfl, rfl, rfl, ?_⟩
  · simp [sim_capture_setup, mkCaptureHandle, SimContext.next_ordinal,
      hact, hrep, hmode, hd, hs]
  · simp [sim_capture_teardown, CaptureHandle.set_result,
      SimContext.is_active, SimContext.is_recording, SimContext.is_replaying,
      SimContext.next_ordinal, hmode]

/--
Witness for C10: a replay capture recorded as 1 overridden by set_result
to 2; the pushed stub carries 2.
-/
theorem C10_set_result_overrides_in_replay_witness :
    ∃ h ctx1,
      sim_capture_setup "lbl"
          { mode := SimMode.REPLAY, stub_dir := some "/stubs" }
          (fun _ => some [("result", PyValue.int 1)])
        = Except.ok (h, ctx1,
            ({ mode := SimMode.REPLAY,
               stub_dir := some "/stubs" } : SimContext).ordinal_counters
              ("capture:" ++ "lbl")) ∧
      h.replaying = true ∧
      h.result = dictGet [("result", PyValue.int 1)] "result" ∧
      (h.set_result (PyValue.int 2)).result = PyValue.int 2 ∧
      (sim_capture_teardown "lbl"
          (({ mode := SimMode.REPLAY,
              stub_dir := some "/stubs" } : SimContext).ordinal_counters
            ("capture:" ++ "lbl"))
          (h.set_result (PyValue.int 2)) ctx1 "u" "t").ctx.collected_stubs
        = ({ mode := SimMode.REPLAY,
             stub_dir := some "/stubs" } : SimContext).collected_stubs ++
          [PyValue.dict
            [("type", PyValue.str "capture"), ("label", PyValue.str "lbl"),
             ("ordinal", PyValue.int
                (({ mode := SimMode.REPLAY,
                    stub_dir := some "/stubs" } : SimContext).ordinal_counters
                  ("capture:" ++ "lbl"))),
             ("result", _make_serializable (PyValue.int 2)),
             ("source", PyValue.str "replay")]] :=
  C10_set_result_overrides_in_replay "lbl"
    { mode := SimMode.REPLAY, stub_dir := some "/stubs" }
    (fun _ => some [("result", PyValue.int 1)]) "/stubs"
    [("result", PyValue.int 1)] (PyValue.int 2) rfl rfl rfl

-- ---------------------------------------------------------------------------
-- sink/in_memory_buffer.py and sink/record_sink.py
-- ---------------------------------------------------------------------------

inductive DropPolicy where
  | DROP_OLDEST : DropPolicy
  | DROP_NEWEST : DropPolicy
  | DROP_RANDOM : DropPolicy
  | DROP_NONE : DropPolicy
deriving DecidableEq

/-
in_memory_buffer.py:23-41 InMemoryBuffer.  memory_usage() is
sys.getsizeof(self.buffer), an interpreter-specific function of the
buffered list; it enters as the usage parameter.  random.randint(0,
len-1) for DROP_RANDOM enters as the randIdx parameter.
-/
structure InMemoryBuffer (Ev : Type) where
  buffer : List Ev
  max_buffer_bytes : Nat
  drop_policy : DropPolicy

def InMemoryBuffer.memory_usage {Ev : Type} (usage : List Ev → Nat)
    (b : InMemoryBuffer Ev) : Nat :=
  usage b.buffer

/- in_memory_buffer.py:49-55 _drop -/
def InMemoryBuffer.dropOne {Ev : Type} (randIdx : Nat)
    (b : InMemoryBuffer Ev) : InMemoryBuffer Ev :=
  match b.drop_policy with
  | DropPolicy.DROP_OLDEST => { b with buffer := b.buffer.drop 1 }
  | DropPolicy.DROP_NEWEST => { b with buffer := b.buffer.dropLast }
  | DropPolicy.DROP_RANDOM => { b with buffer := b.buffer.eraseIdx randIdx }
  | DropPolicy.DROP_NONE => b

/- in_memory_buffer.py:38-41 append -/
def InMemoryBuffer.append {Ev : Type} (usage : List Ev → Nat) (randIdx : Nat)
    (b : InMemoryBuffer Ev) (event : Ev) : InMemoryBuffer Ev :=
  let b1 :=
    if b.memory_usage usage ≥ b.max_buffer_bytes ∧ b.buffer.isEmpty = false
    then b.dropOne randIdx
    else b
  { b1 with buffer := b1.buffer ++ [event] }

/- in_memory_buffer.py:43-47 drain -/
def InMemoryBuffer.drain {Ev : Type} (b : InMemoryBuffer Ev) :
    List Ev × InMemoryBuffer Ev :=
  (b.buffer, { b with buffer := [] })

/-
record_sink.py:20-56 RecordSink: buffered emit with batch flushing;
persisted collects the batches handed to _persist_batch.
-/
structure RecordSinkState (Ev : Type) where
  buffer : InMemoryBuffer Ev
  max_batch_events : Nat
  persisted : List (List Ev) := []

def RecordSinkState.flush {Ev : Type} (s : RecordSinkState Ev) :
    RecordSinkState Ev :=
  let d := s.buffer.drain
  if d.1.isEmpty = false then
    { s with buffer := d.2, persisted := s.persisted ++ [d.1] }
  else { s with buffer := d.2 }

def RecordSinkState.emit {Ev : Type} (usage : List Ev → Nat) (randIdx : Nat)
    (s : RecordSinkState Ev) (event : Ev) : RecordSinkState Ev :=
  let b := s.buffer.append usage randIdx event
  if b.buffer.length ≥ s.max_batch_events then
    RecordSinkState.flush { s with buffer := b }
  else { s with buffer := b }

/--
C7 (counterexample to the claim as stated).  With policy DROP_NEWEST and
the buffer at capacity (usage measured here as the element count), the
next append drops the most recently buffered event and still appends the
incoming one - the incoming event 3 lands in the buffer and the
previously newest event 2 is gone, where the claim's drop-newest would
discard the incoming event.  There is also no dropped-event counter
anywhere in this buffer or sink.
-/
theorem C7_buffer_drop_counterexample :
    (InMemoryBuffer.append (fun l => l.length) 0
        { buffer := [1, 2], max_buffer_bytes := 2,
          drop_policy := DropPolicy.DROP_NEWEST } (3 : Nat)).buffer
      = [1, 3] ∧
    (2 : Nat) ∉ (InMemoryBuffer.append (fun l => l.length) 0
        { buffer := [1, 2], max_buffer_bytes := 2,
          drop_policy := DropPolicy.DROP_NEWEST } (3 : Nat)).buffer ∧
    (3 : Nat) ∈ (InMemoryBuffer.append (fun l => l.length) 0
        { buffer := [1, 2], max_buffer_bytes := 2,
          drop_policy := DropPolicy.DROP_NEWEST } (3 : Nat)).buffer := by
  refine ⟨rfl, by decide, by decide⟩

/--
C7 (amended).  When the buffer's measured memory usage is at or above the
configured ceiling and the buffer is non-empty, the next append removes
exactly one previously-buffered event according to the drop policy
(drop-oldest removes the head, drop-newest removes the most recently
buffered event, drop-random removes the event at the random index) and
always appends the new event, keeping the length constant; a sink emit
below the batch threshold leaves exactly this buffer.  No dropped-event
counter exists on this buffer or sink.
-/
theorem C7_buffer_drop_amended {Ev : Type} (usage : List Ev → Nat)
    (randIdx : Nat) (b : InMemoryBuffer Ev) (e : Ev)
    (hcap : usage b.buffer ≥ b.max_buffer_bytes) (hne : b.buffer ≠ [])
    (hrand : randIdx < b.buffer.length) :
    ((b.drop_policy = DropPolicy.DROP_OLDEST →
        (InMemoryBuffer.append usage randIdx b e).buffer
          = b.buffer.drop 1 ++ [e]) ∧
     (b.drop_policy = DropPolicy.DROP_NEWEST →
        (InMemoryBuffer.append usage randIdx b e).buffer
          = b.buffer.dropLast ++ [e]) ∧
     (b.drop_policy = DropPolicy.DROP_RANDOM →
        (InMemoryBuffer.append usage randIdx b e).buffer
          = b.buffer.eraseIdx randIdx ++ [e])) ∧
    (b.drop_policy ≠ DropPolicy.DROP_NONE →
      (InMemoryBuffer.append usage randIdx b e).buffer.length
        = b.buffer.length) ∧
    ∀ (s : RecordSinkState Ev), s.buffer = b →
      (InMemoryBuffer.append usage randIdx b e).buffer.length
          < s.max_batch_events →
      (RecordSinkState.emit usage randIdx s e).buffer
        = InMemoryBuffer.append usage randIdx b e := by
  have hne' : b.buffer.isEmpty = false := by
    rcases hb : b.buffer with _ | ⟨x, xs⟩
    · exact absurd hb hne
    · rfl
  have h1 : 1 ≤ b.buffer.length := by
    rcases hb : b.buffer with _ | ⟨x, xs⟩
    · exact absurd hb hne
    · simp
  have happ : (InMemoryBuffer.append usage randIdx b e).buffer
      = (b.dropOne randIdx).buffer ++ [e] := by
    simp [InMemoryBuffer.append, InMemoryBuffer.memory_usage, hcap, hne']
  refine ⟨⟨?_, ?_, ?_⟩, ?_, ?_⟩
  · intro hp; rw [happ]; simp [InMemoryBuffer.dropOne, hp]
  · intro hp; rw [happ]; simp [InMemoryBuffer.dropOne, hp]
  · intro hp; rw [happ]; simp [InMemoryBuffer.dropOne, hp]
  · intro hp
    rw [happ]
    rcases hb : b.drop_policy with _ | _ | _ | _
    · simp [InMemoryBuffer.dropOne, hb]
      omega
    · simp [InMemoryBuffer.dropOne, hb, List.length_dropLast]
      omega
    · simp [InMemoryBuffer.dropOne, hb, List.length_eraseIdx, hrand]
      omega
    · exact absurd hb hp
  · intro s hs hlt
    have hcond : ¬ (s.max_batch_events ≤
        (InMemoryBuffer.append usage randIdx b e).buffer.length) := by
      omega
    simp [RecordSinkState.emit, hs, ge_iff_le, hcond]

/--
Witness for the amended C7: a concrete at-capacity buffer under
DROP_OLDEST drops the head and appends the new event.
-/
theorem C7_buffer_drop_amended_witness :
    ((({ buffer := [1, 2], max_buffer_bytes := 2,
         drop_policy := DropPolicy.DROP_OLDEST } :
          InMemoryBuffer Nat).drop_policy = DropPolicy.DROP_OLDEST →
        (InMemoryBuffer.append (fun l => l.length) 0
          { buffer := [1, 2], max_buffer_bytes := 2,
            drop_policy := DropPolicy.DROP_OLDEST } (3 : Nat)).buffer
          = ([1, 2] : List Nat).drop 1 ++ [3]) ∧
     (({ buffer := [1, 2], max_buffer_bytes := 2,
         drop_policy := DropPolicy.DROP_OLDEST } :
          InMemoryBuffer Nat).drop_policy = DropPolicy.DROP_NEWEST →
        (InMemoryBuffer.append (fun l => l.length) 0
          { buffer := [1, 2], max_buffer_bytes := 2,
            drop_policy := DropPolicy.DROP_OLDEST } (3 : Nat)).buffer
          = ([1, 2] : List Nat).dropLast ++ [3]) ∧
     (({ buffer := [1, 2], max_buffer_bytes := 2,
         drop_policy := DropPolicy.DROP_OLDEST } :
          InMemoryBuffer Nat).drop_policy = DropPolicy.DROP_RANDOM →
        (InMemoryBuffer.append (fun l => l.length) 0
          { buffer := [1, 2], max_buffer_bytes := 2,
            drop_policy := DropPolicy.DROP_OLDEST } (3 : Nat)).buffer
          = ([1, 2] : List Nat).eraseIdx 0 ++ [3])) ∧
    (({ buffer := [1, 2], max_buffer_bytes := 2,
        drop_policy := DropPolicy.DROP_OLDEST } :
         InMemoryBuffer Nat).drop_policy ≠ DropPolicy.DROP_NONE →
      (InMemoryBuffer.append (fun l => l.length) 0
        { buffer := [1, 2], max_buffer_bytes := 2,
          drop_policy := DropPolicy.DROP_OLDEST } (3 : Nat)).buffer.length
        = ([1, 2] : List Nat).length) ∧
    ∀ (s : RecordSinkState Nat),
      s.buffer = { buffer := [1, 2], max_buffer_bytes := 2,
                   drop_policy := DropPolicy.DROP_OLDEST } →
      (InMemoryBuffer.append (fun l => l.length) 0
        { buffer := [1, 2], max_buffer_bytes := 2,
          drop_policy := DropPolicy.DROP_OLDEST } (3 : Nat)).buffer.length
          < s.max_batch_events →
      (RecordSinkState.emit (fun l => l.length) 0 s (3 : Nat)).buffer
        = InMemoryBuffer.append (fun l => l.length) 0
            { buffer := [1, 2], max_buffer_bytes := 2,
              drop_policy := DropPolicy.DROP_OLDEST } (3 : Nat) :=
  C7_buffer_drop_amended (fun l => l.length) 0
    { buffer := [1, 2], max_buffer_bytes := 2,
      drop_policy := DropPolicy.DROP_OLDEST } (3 : Nat) (by decide)
    (by decide) (by decide)

-- ---------------------------------------------------------------------------
-- diff.py - DiffEngine
-- ---------------------------------------------------------------------------

/- Python str()/repr() renderings used only inside human-readable
messages (string repr is a surrogate that does not escape quotes). -/
def pyTypeName : PyValue → String
  | PyValue.none => "NoneType"
  | PyValue.bool _ => "bool"
  | PyValue.int _ => "int"
  | PyValue.float _ => "float"
  | PyValue.str _ => "str"
  | PyValue.bytes _ => "bytes"
  | PyValue.list _ => "list"
  | PyValue.dict _ => "dict"

def pyRepr : PyValue → String
  | PyValue.none => "None"
  | PyValue.bool true => "True"
  | PyValue.bool false => "False"
  | PyValue.int n => intRepr n
  | PyValue.float q => ratRepr q
  | PyValue.str s => "\x27" ++ s ++ "\x27"
  | PyValue.bytes bs => "b\x27" ++ bytesHex bs ++ "\x27"
  | PyValue.list items =>
    "[" ++ joinStr ", " (items.attach.map (fun e => pyRepr e.1)) ++ "]"
  | PyValue.dict es =>
    "\x7b" ++ joinStr ", " (es.attach.map (fun e =>
      "\x27" ++ e.1.1 ++ "\x27: " ++ pyRepr e.1.2)) ++ "\x7d"
  decreasing_by
  · rcases e with ⟨v, hmem⟩
    have := List.sizeOf_lt_of_mem hmem
    simp only [PyValue.list.sizeOf_spec] at *
    omega
  · rcases e with ⟨⟨k, v⟩, hmem⟩
    have := List.sizeOf_lt_of_mem hmem
    simp only [PyValue.dict.sizeOf_spec, Prod.mk.sizeOf_spec] at *
    omega

def pyStr : PyValue → String
  | PyValue.none => "None"
  | PyValue.bool true => "True"
  | PyValue.bool false => "False"
  | PyValue.int n => intRepr n
  | PyValue.float q => ratRepr q
  | PyValue.str s => s
  | v => pyRepr v

/- Python format spec .Nf: fixed N decimal places (half-even rounding). -/
def formatFixed (places : Nat) (q : Rat) : String :=
  let r := pyRound q places
  let sign := if r < 0 then "-" else ""
  let total := ((|r|) * (10 : Rat) ^ places).floor.toNat
  let ip := total / 10 ^ places
  let frac := total % 10 ^ places
  sign ++ natRepr ip ++ "." ++
    String.mk (padLeftZeros places (natDigitsFuel (frac + 1) frac))

inductive DiffType where
  | STATUS_CODE : DiffType
  | VALUE_CHANGED : DiffType
  | TYPE_CHANGED : DiffType
  | ITEM_ADDED : DiffType
  | ITEM_REMOVED : DiffType
  | MONEY_TOLERANCE_EXCEEDED : DiffType
deriving DecidableEq

/- diff.py:35-53 -/
structure Difference where
  diff_type : DiffType
  path : String
  golden_value : PyValue
  candidate_value : PyValue
  message : String
  is_critical : Bool := true

/- diff.py:289-316 DiffConfig with its default field values. -/
structure DiffConfig where
  ignore_paths : List String :=
    ["request_id", "trace_id", "timestamp", "quoted_at", "created_at",
     "updated_at"]
  money_paths : List String :=
    ["total", "subtotal", "tax", "price", "amount", "cost"]
  money_tolerance : Rat := 1 / 100
  float_tolerance : Rat := 1 / 1000000000

/-
diff.py:348-371 _compile_patterns and pattern.search: for a literal field
name (re.escape), the compiled regex matches a path iff the path ends
with ['name'], or contains ['name'][, or is exactly the bare name.
-/
def matchesPattern (name path : String) : Bool :=
  pyEndsWith path ("['" ++ name ++ "']") ||
  pyContains path ("['" ++ name ++ "'][") ||
  path == name

def _should_ignore (cfg : DiffConfig) (path : String) : Bool :=
  cfg.ignore_paths.any (fun p => matchesPattern p path)

def _is_money_path (cfg : DiffConfig) (path : String) : Bool :=
  cfg.money_paths.any (fun p => matchesPattern p path)

/- diff.py:373-380 -/
def _extract_path_key (deepdiff_path : String) : String :=
  let p := pyReplace (pyReplace (pyReplace (pyReplace deepdiff_path
    "root" "") "']['" ".") "['" "") "']" ""
  if pyStartsWith p "." then String.mk (p.data.drop 1) else p

/- diff.py:548-550: int or float but never bool. -/
def _is_numeric : PyValue → Bool
  | PyValue.int _ => true
  | PyValue.float _ => true
  | _ => false

/- float(x) for the values admitted by _is_numeric. -/
def pyFloat : PyValue → Rat
  | PyValue.int n => (n : Rat)
  | PyValue.float q => q
  | PyValue.bool b => if b then 1 else 0
  | _ => 0

/-
The DeepDiff library output (an external collaborator): one bucket per
change kind, each entry keyed by a path string in DeepDiff's
root['a']['b'] format.
-/
structure DeepDiffOut where
  values_changed : List (String × PyValue × PyValue) := []
  type_changes : List (String × PyValue × PyValue) := []
  dictionary_item_added : List (String × PyValue) := []
  dictionary_item_removed : List (String × PyValue) := []
  iterable_item_added : List (String × PyValue) := []
  iterable_item_removed : List (String × PyValue) := []

/-
diff.py:431-477, one iteration of the values_changed loop: what it
appends to differences (first component) and to ignored (second).
-/
def valueChangeStep (cfg : DiffConfig) (entry : String × PyValue × PyValue) :
    List Difference × List String :=
  let path := entry.1
  let readable_path := _extract_path_key path
  if _should_ignore cfg path then ([], [readable_path])
  else
    let old_val := entry.2.1
    let new_val := entry.2.2
    if _is_money_path cfg path ∧ _is_numeric old_val = true ∧
       _is_numeric new_val = true then
      let diff_amount := |pyFloat new_val - pyFloat old_val|
      if diff_amount ≤ cfg.money_tolerance then
        ([], [readable_path ++ " (within tolerance: " ++
          formatFixed 4 diff_amount ++ ")"])
      else
        ([{ diff_type := DiffType.MONEY_TOLERANCE_EXCEEDED,
            path := readable_path, golden_value := old_val,
            candidate_value := new_val,
            message := "Money value changed by $" ++
              formatFixed 2 diff_amount ++ " (tolerance: $" ++
              ratRepr cfg.money_tolerance ++ ")" }], [])
    else if _is_numeric old_val = true ∧ _is_numeric new_val = true then
      let diff_amount := |pyFloat new_val - pyFloat old_val|
      if diff_amount ≤ cfg.float_tolerance then
        ([], [readable_path ++ " (within float tolerance)"])
      else
        ([{ diff_type := DiffType.VALUE_CHANGED, path := readable_path,
            golden_value := old_val, candidate_value := new_val,
            message := "Value changed from " ++ pyStr old_val ++ " to " ++
              pyStr new_val }], [])
    else
      ([{ diff_type := DiffType.VALUE_CHANGED, path := readable_path,
          golden_value := old_val, candidate_value := new_val,
          message := "Value changed from " ++ pyRepr old_val ++ " to " ++
            pyRepr new_val }], [])

/- diff.py:479-492, one iteration of the type_changes loop. -/
def typeChangeStep (cfg : DiffConfig) (entry : String × PyValue × PyValue) :
    List Difference × List String :=
  let readable_path := _extract_path_key entry.1
  if _should_ignore cfg entry.1 then ([], [readable_path])
  else
    ([{ diff_type := DiffType.TYPE_CHANGED, path := readable_path,
        golden_value :=
          PyValue.str (pyTypeName entry.2.1 ++ ": " ++ pyStr entry.2.1),
        candidate_value :=
          PyValue.str (pyTypeName entry.2.2 ++ ": " ++ pyStr entry.2.2),
        message := "Type changed at " ++ readable_path }], [])

/- diff.py:494-507 dictionary_item_added. -/
def dictAddedStep (cfg : DiffConfig) (entry : String × PyValue) :
    List Difference × List String :=
  let readable_path := _extract_path_key entry.1
  if _should_ignore cfg entry.1 then ([], [readable_path])
  else
    ([{ diff_type := DiffType.ITEM_ADDED, path := readable_path,
        golden_value := PyValue.none, candidate_value := entry.2,
        message := "New field added: " ++ readable_path }], [])

/- diff.py:509-522 dictionary_item_removed. -/
def dictRemovedStep (cfg : DiffConfig) (entry : String × PyValue) :
    List Difference × List String :=
  let readable_path := _extract_path_key entry.1
  if _should_ignore cfg entry.1 then ([], [readable_path])
  else
    ([{ diff_type := DiffType.ITEM_REMOVED, path := readable_path,
        golden_value := entry.2, candidate_value := PyValue.none,
        message := "Field removed: " ++ readable_path }], [])

/- diff.py:524-538 iterable_item_added / iterable_item_removed. -/
def iterStep (cfg : DiffConfig) (added : Bool) (entry : String × PyValue) :
    List Difference × List String :=
  let readable_path := _extract_path_key entry.1
  if _should_ignore cfg entry.1 then ([], [readable_path])
  else if added then
    ([{ diff_type := DiffType.ITEM_ADDED, path := readable_path,
        golden_value := PyValue.none, candidate_value := entry.2,
        message := "Array item added: " ++ readable_path }], [])
  else
    ([{ diff_type := DiffType.ITEM_REMOVED, path := readable_path,
        golden_value := entry.2, candidate_value := PyValue.none,
        message := "Array item removed: " ++ readable_path }], [])

/- A response dict as read by compare: optional status / status_code. -/
structure Response where
  status : Option Int := Option.none
  status_code : Option Int := Option.none

/- diff.py:56-76 -/
structure DiffResult where
  fixture_id : String
  endpoint : String
  passed : Bool
  differences : List Difference := []
  ignored_paths : List String := []

/-
diff.py:382-546 DiffEngine.compare.  The body comparison itself is
DeepDiff (external); its output dd is processed change kind by change
kind, in the fixed bucket order values_changed, type_changes,
dictionary added/removed, iterable added/removed (the Python dict
iteration order of the DeepDiff result).  passed is len(differences)==0.
-/
def DiffEngine.compare (cfg : DiffConfig) (fixture_id endpoint : String)
    (golden candidate : Response) (dd : DeepDiffOut) : DiffResult :=
  let golden_status := golden.status.getD (golden.status_code.getD 200)
  let candidate_status := candidate.status.getD (candidate.status_code.getD 200)
  let statusDiffs : List Difference :=
    if golden_status ≠ candidate_status then
      [{ diff_type := DiffType.STATUS_CODE, path := "status_code",
         golden_value := PyValue.int golden_status,
         candidate_value := PyValue.int candidate_status,
         message := "Status code changed from " ++ intRepr golden_status ++
           " to " ++ intRepr candidate_status }]
    else []
  let differences := statusDiffs ++
    dd.values_changed.flatMap (fun e => (valueChangeStep cfg e).1) ++
    dd.type_changes.flatMap (fun e => (typeChangeStep cfg e).1) ++
    dd.dictionary_item_added.flatMap (fun e => (dictAddedStep cfg e).1) ++
    dd.dictionary_item_removed.flatMap (fun e => (dictRemovedStep cfg e).1) ++
    dd.iterable_item_added.flatMap (fun e => (iterStep cfg true e).1) ++
    dd.iterable_item_removed.flatMap (fun e => (iterStep cfg false e).1)
  let ignored :=
    dd.values_changed.flatMap (fun e => (valueChangeStep cfg e).2) ++
    dd.type_changes.flatMap (fun e => (typeChangeStep cfg e).2) ++
    dd.dictionary_item_added.flatMap (fun e => (dictAddedStep cfg e).2) ++
    dd.dictionary_item_removed.flatMap (fun e => (dictRemovedStep cfg e).2) ++
    dd.iterable_item_added.flatMap (fun e => (iterStep cfg true e).2) ++
    dd.iterable_item_removed.flatMap (fun e => (iterStep cfg false e).2)
  { fixture_id := fixture_id, endpoint := endpoint,
    passed := differences.length == 0, differences := differences,
    ignored_paths := ignored }

-- Helper lemmas about compare's assembled lists.

theorem compare_passed_eq (cfg : DiffConfig) (fid ep : String)
    (golden candidate : Response) (dd : DeepDiffOut) :
    (DiffEngine.compare cfg fid ep golden candidate dd).passed
      = ((DiffEngine.compare cfg fid ep golden candidate dd).differences.length
          == 0) := rfl

theorem compare_mem_differences_of_vc (cfg : DiffConfig) (fid ep : String)
    (golden candidate : Response) (dd : DeepDiffOut)
    (entry : String × PyValue × PyValue) (d : Difference)
    (hin : entry ∈ dd.values_changed)
    (hd : d ∈ (valueChangeStep cfg entry).1) :
    d ∈ (DiffEngine.compare cfg fid ep golden candidate dd).differences := by
  have hv : d ∈ dd.values_changed.flatMap (fun e => (valueChangeStep cfg e).1) :=
    List.mem_flatMap.mpr ⟨entry, hin, hd⟩
  simp only [DiffEngine.compare]
  exact List.mem_append_left _ (List.mem_append_left _
    (List.mem_append_left _ (List.mem_append_left _
      (List.mem_append_left _ (List.mem_append_right _ hv)))))

theorem compare_mem_ignored_of_vc (cfg : DiffConfig) (fid ep : String)
    (golden candidate : Response) (dd : DeepDiffOut)
    (entry : String × PyValue × PyValue) (s : String)
    (hin : entry ∈ dd.values_changed)
    (hs : s ∈ (valueChangeStep cfg entry).2) :
    s ∈ (DiffEngine.compare cfg fid ep golden candidate dd).ignored_paths := by
  have hv : s ∈ dd.values_changed.flatMap (fun e => (valueChangeStep cfg e).2) :=
    List.mem_flatMap.mpr ⟨entry, hin, hs⟩
  simp only [DiffEngine.compare]
  exact List.mem_append_left _ (List.mem_append_left _
    (List.mem_append_left _ (List.mem_append_left _
      (List.mem_append_left _ hv))))

theorem compare_not_passed_of_mem (cfg : DiffConfig) (fid ep : String)
    (golden candidate : Response) (dd : DeepDiffOut) (d : Difference)
    (hd : d ∈ (DiffEngine.compare cfg fid ep golden candidate dd).differences) :
    (DiffEngine.compare cfg fid ep golden candidate dd).passed = false := by
  have hlen := List.length_pos_of_mem hd
  rw [compare_passed_eq]
  exact beq_eq_false_iff_ne.mpr (by omega)

/--
C6 (counterexample to the claim as stated).  When a path matches both an
ignore pattern and a money pattern, the ignore branch wins
(diff.py:437-439 precedes the money check): golden total 1 vs candidate
total 100 with money_tolerance 0.01 records NO difference and passed stays
true, although the path matches a money pattern, both sides are numeric
and the deviation exceeds the tolerance - contradicting the claim's
"records a difference if and only if the deviation exceeds the tolerance".
-/
theorem C6_money_tolerance_counterexample :
    _is_money_path
        { ignore_paths := ["total"], money_paths := ["total"] }
        "root['total']" = true ∧
    _is_numeric (PyValue.float 1) = true ∧
    _is_numeric (PyValue.float 100) = true ∧
    ({ ignore_paths := ["total"],
       money_paths := ["total"] } : DiffConfig).money_tolerance
      < |pyFloat (PyValue.float 100) - pyFloat (PyValue.float 1)| ∧
    (DiffEngine.compare { ignore_paths := ["total"], money_paths := ["total"] }
        "fx" "ep" {} {}
        { values_changed :=
            [("root['total']", PyValue.float 1, PyValue.float 100)] }).differences
      = [] ∧
    (DiffEngine.compare { ignore_paths := ["total"], money_paths := ["total"] }
        "fx" "ep" {} {}
        { values_changed :=
            [("root['total']", PyValue.float 1, PyValue.float 100)] }).passed
      = true := by
  refine ⟨by decide, rfl, rfl, by norm_num [pyFloat], rfl, rfl⟩

/--
C6 (amended).  For every changed path that does NOT match an ignore
pattern, matches a money pattern and has numeric values on both sides:
the comparison records exactly one money_tolerance_exceeded difference
for it (making passed false) iff the absolute deviation exceeds
money_tolerance; when within tolerance it records no difference for the
path and instead appends the path (annotated with the deviation) to
ignored_paths.
-/
theorem C6_money_tolerance_amended (cfg : DiffConfig) (fid ep : String)
    (golden candidate : Response) (dd : DeepDiffOut)
    (path : String) (oldv newv : PyValue)
    (hin : (path, oldv, newv) ∈ dd.values_changed)
    (hig : _should_ignore cfg path = false)
    (hm : _is_money_path cfg path = true)
    (ho : _is_numeric oldv = true) (hn : _is_numeric newv = true) :
    (cfg.money_tolerance < |pyFloat newv - pyFloat oldv| →
      valueChangeStep cfg (path, oldv, newv) =
        ([{ diff_type := DiffType.MONEY_TOLERANCE_EXCEEDED,
            path := _extract_path_key path, golden_value := oldv,
            candidate_value := newv,
            message := "Money value changed by $" ++
              formatFixed 2 (|pyFloat newv - pyFloat oldv|) ++
              " (tolerance: $" ++ ratRepr cfg.money_tolerance ++ ")" }], []) ∧
      (∃ d ∈ (DiffEngine.compare cfg fid ep golden candidate dd).differences,
        d.diff_type = DiffType.MONEY_TOLERANCE_EXCEEDED ∧
        d.path = _extract_path_key path ∧ d.golden_value = oldv ∧
        d.candidate_value = newv) ∧
      (DiffEngine.compare cfg fid ep golden candidate dd).passed = false) ∧
    (|pyFloat newv - pyFloat oldv| ≤ cfg.money_tolerance →
      valueChangeStep cfg (path, oldv, newv) =
        ([], [_extract_path_key path ++ " (within tolerance: " ++
          formatFixed 4 (|pyFloat newv - pyFloat oldv|) ++ ")"]) ∧
      (_extract_path_key path ++ " (within tolerance: " ++
        formatFixed 4 (|pyFloat newv - pyFloat oldv|) ++ ")")
        ∈ (DiffEngine.compare cfg fid ep golden candidate dd).ignored_paths) := by
  constructor
  · intro hgt
    have hnle : ¬ (|pyFloat newv - pyFloat oldv| ≤ cfg.money_tolerance) :=
      not_le.mpr hgt
    have hstep : valueChangeStep cfg (path, oldv, newv) =
        ([{ diff_type := DiffType.MONEY_TOLERANCE_EXCEEDED,
            path := _extract_path_key path, golden_value := oldv,
            candidate_value := newv,
            message := "Money value changed by $" ++
              formatFixed 2 (|pyFloat newv - pyFloat oldv|) ++
              " (tolerance: $" ++ ratRepr cfg.money_tolerance ++ ")" }], []) := by
      simp [valueChangeStep, hig, hm, ho, hn, hnle]
    have hmem := compare_mem_differences_of_vc cfg fid ep golden candidate dd
      (path, oldv, newv) _ hin (by rw [hstep]; exact List.mem_singleton_self _)
    exact ⟨hstep, ⟨_, hmem, rfl, rfl, rfl, rfl⟩,
      compare_not_passed_of_mem cfg fid ep golden candidate dd _ hmem⟩
  · intro hle
    have hstep : valueChangeStep cfg (path, oldv, newv) =
        ([], [_extract_path_key path ++ " (within tolerance: " ++
          formatFixed 4 (|pyFloat newv - pyFloat oldv|) ++ ")"]) := by
      simp [valueChangeStep, hig, hm, ho, hn, hle]
    exact ⟨hstep, compare_mem_ignored_of_vc cfg fid ep golden candidate dd
      (path, oldv, newv) _ hin (by rw [hstep]; exact List.mem_singleton_self _)⟩

/--
Witness for the amended C6: the spec's S5 scenario, golden total 21.78
against candidate 21.785 with tolerance 0.01 (the within-tolerance arm
applies with deviation 0.005).
-/
theorem C6_money_tolerance_amended_witness :
    (({ money_paths := ["total"] } : DiffConfig).money_tolerance
        < |pyFloat (PyValue.float (21785 / 1000)) -
            pyFloat (PyValue.float (2178 / 100))| →
      valueChangeStep { money_paths := ["total"] }
          ("root['total']", PyValue.float (2178 / 100),
            PyValue.float (21785 / 1000)) =
        ([{ diff_type := DiffType.MONEY_TOLERANCE_EXCEEDED,
            path := _extract_path_key "root['total']",
            golden_value := PyValue.float (2178 / 100),
            candidate_value := PyValue.float (21785 / 1000),
            message := "Money value changed by $" ++
              formatFixed 2 (|pyFloat (PyValue.float (21785 / 1000)) -
                pyFloat (PyValue.float (2178 / 100))|) ++
              " (tolerance: $" ++
              ratRepr ({ money_paths := ["total"] } : DiffConfig).money_tolerance
              ++ ")" }], []) ∧
      (∃ d ∈ (DiffEngine.compare { money_paths := ["total"] } "fx" "ep" {} {}
          { values_changed := [("root['total']", PyValue.float (2178 / 100),
              PyValue.float (21785 / 1000))] }).differences,
        d.diff_type = DiffType.MONEY_TOLERANCE_EXCEEDED ∧
        d.path = _extract_path_key "root['total']" ∧
        d.golden_value = PyValue.float (2178 / 100) ∧
        d.candidate_value = PyValue.float (21785 / 1000)) ∧
      (DiffEngine.compare { money_paths := ["total"] } "fx" "ep" {} {}
          { values_changed := [("root['total']", PyValue.float (2178 / 100),
              PyValue.float (21785 / 1000))] }).passed = false) ∧
    (|pyFloat (PyValue.float (21785 / 1000)) -
        pyFloat (PyValue.float (2178 / 100))|
        ≤ ({ money_paths := ["total"] } : DiffConfig).money_tolerance →
      valueChangeStep { money_paths := ["total"] }
          ("root['total']", PyValue.float (2178 / 100),
            PyValue.float (21785 / 1000)) =
        ([], [_extract_path_key "root['total']" ++ " (within tolerance: " ++
          formatFixed 4 (|pyFloat (PyValue.float (21785 / 1000)) -
            pyFloat (PyValue.float (2178 / 100))|) ++ ")"]) ∧
      (_extract_path_key "root['total']" ++ " (within tolerance: " ++
        formatFixed 4 (|pyFloat (PyValue.float (21785 / 1000)) -
          pyFloat (PyValue.float (2178 / 100))|) ++ ")")
        ∈ (DiffEngine.compare { money_paths := ["total"] } "fx" "ep" {} {}
            { values_changed := [("root['total']", PyValue.float (2178 / 100),
                PyValue.float (21785 / 1000))] }).ignored_paths) :=
  C6_money_tolerance_amended { money_paths := ["total"] } "fx" "ep" {} {}
    { values_changed := [("root['total']", PyValue.float (2178 / 100),
        PyValue.float (21785 / 1000))] }
    "root['total']" (PyValue.float (2178 / 100)) (PyValue.float (21785 / 1000))
    (List.mem_singleton_self _) (by decide) (by decide) rfl rfl

/- Spec-side predicate for stating C9: is the value a Python bool. -/
def PyValue.isBool : PyValue → Bool
  | PyValue.bool _ => true
  | _ => false

theorem not_numeric_of_isBool (v : PyValue) (h : v.isBool = true) :
    _is_numeric v = false := by
  cases v <;> simp_all [PyValue.isBool, _is_numeric]

/--
C9 (counterexample to the claim as stated).  A changed path whose values
are bools but which matches an ignore pattern is NOT recorded as a
difference: config ignoring "flag" with golden True vs candidate False at
root['flag'] yields no differences and passed = true, contradicting the
claim's "the change is recorded as a difference" for every bool-valued
changed path.
-/
theorem C9_bool_not_numeric_counterexample :
    (PyValue.bool true).isBool = true ∧
    (DiffEngine.compare { ignore_paths := ["flag"] } "fx" "ep" {} {}
        { values_changed :=
            [("root['flag']", PyValue.bool true, PyValue.bool false)] }).differences
      = [] ∧
    (DiffEngine.compare { ignore_paths := ["flag"] } "fx" "ep" {} {}
        { values_changed :=
            [("root['flag']", PyValue.bool true, PyValue.bool false)] }).passed
      = true := by
  refine ⟨rfl, rfl, rfl⟩

/--
C9 (amended).  For every changed path that does not match an ignore
pattern and whose golden or candidate value is a bool: _is_numeric
rejects the bool, so neither the money-tolerance branch nor the
float-tolerance branch applies, and the change is recorded as a
value_changed difference (making passed false) regardless of any
configured tolerance, even when the two values are numerically equal.
-/
theorem C9_bool_never_numeric_amended (cfg : DiffConfig) (fid ep : String)
    (golden candidate : Response) (dd : DeepDiffOut)
    (path : String) (oldv newv : PyValue)
    (hin : (path, oldv, newv) ∈ dd.values_changed)
    (hig : _should_ignore cfg path = false)
    (hb : oldv.isBool = true ∨ newv.isBool = true) :
    valueChangeStep cfg (path, oldv, newv) =
      ([{ diff_type := DiffType.VALUE_CHANGED, path := _extract_path_key path,
          golden_value := oldv, candidate_value := newv,
          message := "Value changed from " ++ pyRepr oldv ++ " to " ++
            pyRepr newv }], []) ∧
    (∃ d ∈ (DiffEngine.compare cfg fid ep golden candidate dd).differences,
      d.diff_type = DiffType.VALUE_CHANGED ∧
      d.path = _extract_path_key path ∧ d.golden_value = oldv ∧
      d.candidate_value = newv) ∧
    (DiffEngine.compare cfg fid ep golden candidate dd).passed = false := by
  have hstep : valueChangeStep cfg (path, oldv, newv) =
      ([{ diff_type := DiffType.VALUE_CHANGED, path := _extract_path_key path,
          golden_value := oldv, candidate_value := newv,
          message := "Value changed from " ++ pyRepr oldv ++ " to " ++
            pyRepr newv }], []) := by
    rcases hb with hb | hb
    · have hno := not_numeric_of_isBool oldv hb
      simp [valueChangeStep, hig, hno]
    · have hnn := not_numeric_of_isBool newv hb
      simp [valueChangeStep, hig, hnn]
  have hmem := compare_mem_differences_of_vc cfg fid ep golden candidate dd
    (path, oldv, newv) _ hin (by rw [hstep]; exact List.mem_singleton_self _)
  exact ⟨hstep, ⟨_, hmem, rfl, rfl, rfl, rfl⟩,
    compare_not_passed_of_mem cfg fid ep golden candidate dd _ hmem⟩

/--
Witness for the amended C9: golden True against candidate 1 (numerically
equal in Python) on a non-ignored path is recorded as a value_changed
difference and fails the comparison.
-/
theorem C9_bool_never_numeric_amended_witness :
    valueChangeStep {} ("root['flag']", PyValue.bool true, PyValue.int 1) =
      ([{ diff_type := DiffType.VALUE_CHANGED,
          path := _extract_path_key "root['flag']",
          golden_value := PyValue.bool true, candidate_value := PyValue.int 1,
          message := "Value changed from " ++ pyRepr (PyValue.bool true) ++
            " to " ++ pyRepr (PyValue.int 1) }], []) ∧
    (∃ d ∈ (DiffEngine.compare {} "fx" "ep" {} {}
        { values_changed :=
            [("root['flag']", PyValue.bool true, PyValue.int 1)] }).differences,
      d.diff_type = DiffType.VALUE_CHANGED ∧
      d.path = _extract_path_key "root['flag']" ∧
      d.golden_value = PyValue.bool true ∧
      d.candidate_value = PyValue.int 1) ∧
    (DiffEngine.compare {} "fx" "ep" {} {}
        { values_changed :=
            [("root['flag']", PyValue.bool true, PyValue.int 1)] }).passed
      = false :=
  C9_bool_never_numeric_amended {} "fx" "ep" {} {}
    { values_changed := [("root['flag']", PyValue.bool true, PyValue.int 1)] }
    "root['flag']" (PyValue.bool true) (PyValue.int 1)
    (List.mem_singleton_self _) (by decide) (Or.inl rfl)

-- ---------------------------------------------------------------------------
-- canonicalize.py - _normalize_value, canonicalize, fingerprint
-- ---------------------------------------------------------------------------

/-
An embedded Python float for canonicalize.py: a rational or one of the
IEEE specials the code tests for (value != value, float("inf"),
float("-inf")).
-/
inductive PFloat where
  | nan : PFloat
  | inf : PFloat
  | ninf : PFloat
  | val (q : Rat) : PFloat
deriving DecidableEq

/-
The input domain of canonicalize.py: JSON-compatible trees plus Decimal
(dec) and bytes; Python dict preserves insertion order, so objects are
association lists.
-/
inductive CVal where
  | none : CVal
  | bool (b : Bool) : CVal
  | int (n : Int) : CVal
  | float (f : PFloat) : CVal
  | dec (q : Rat) : CVal
  | str (s : String) : CVal
  | bytes (bs : List Nat) : CVal
  | list (items : List CVal) : CVal
  | dict (entries : List (String × CVal)) : CVal

/- The normalized tree produced by _normalize_value. -/
inductive NVal where
  | null : NVal
  | bool (b : Bool) : NVal
  | int (n : Int) : NVal
  | num (q : Rat) : NVal
  | str (s : String) : NVal
  | list (items : List NVal) : NVal
  | dict (entries : List (String × NVal)) : NVal

/- canonicalize.py:63-71, the float branch of _normalize_value. -/
def _normalize_float : PFloat → NVal
  | PFloat.nan => NVal.null
  | PFloat.inf => NVal.str "Infinity"
  | PFloat.ninf => NVal.str "-Infinity"
  | PFloat.val q => NVal.num (pyRound q 6)

/- canonicalize.py:49-91 _normalize_value. -/
def _normalize_value : CVal → NVal
  | CVal.none => NVal.null
  | CVal.bool b => NVal.bool b
  | CVal.int n => NVal.int n
  | CVal.float f => _normalize_float f
  | CVal.dec q => NVal.num (pyRound q 6)
  | CVal.str s => NVal.str s
  | CVal.bytes bs => NVal.str (base64Encode bs)
  | CVal.dict es => NVal.dict (es.attach.map (fun e =>
      (e.1.1, _normalize_value e.1.2)))
  | CVal.list items => NVal.list (items.attach.map (fun e =>
      _normalize_value e.1))
  decreasing_by
  · rcases e with ⟨⟨k, v⟩, hmem⟩
    have := List.sizeOf_lt_of_mem hmem
    simp only [CVal.dict.sizeOf_spec, Prod.mk.sizeOf_spec] at *
    omega
  · rcases e with ⟨v, hmem⟩
    have := List.sizeOf_lt_of_mem hmem
    simp only [CVal.list.sizeOf_spec] at *
    omega

/-
json.dumps(normalized, sort_keys=True, separators=(",", ":")) with the
default ensure_ascii=True; keys of every object are sorted while
serializing.
-/
def renderNVal : NVal → String
  | NVal.null => "null"
  | NVal.bool true => "true"
  | NVal.bool false => "false"
  | NVal.int n => intRepr n
  | NVal.num q => ratRepr q
  | NVal.str s => jsonQuoteA s
  | NVal.list items =>
    "[" ++ joinStr "," (items.attach.map (fun e => renderNVal e.1)) ++ "]"
  | NVal.dict es =>
    let rendered := es.attach.map (fun e => (e.1.1, renderNVal e.1.2))
    "\x7b" ++
      joinStr "," ((List.insertionSort (fun a b => a.1 ≤ b.1) rendered).map
        (fun p => jsonQuoteA p.1 ++ ":" ++ p.2)) ++ "\x7d"
  decreasing_by
  · rcases e with ⟨v, hmem⟩
    have := List.sizeOf_lt_of_mem hmem
    simp only [NVal.list.sizeOf_spec] at *
    omega
  · rcases e with ⟨⟨k, v⟩, hmem⟩
    have := List.sizeOf_lt_of_mem hmem
    simp only [NVal.dict.sizeOf_spec, Prod.mk.sizeOf_spec] at *
    omega

/- canonicalize.py:14-31 -/
def canonicalize (data : CVal) : String := renderNVal (_normalize_value data)

/- canonicalize.py:34-46: first 16 hex chars of the SHA-256. -/
def fingerprint16 (data : CVal) : String := strTake (sha256Hex (canonicalize data)) 16

-- The structural-equality-up-to-normalization relation of the claim: equal
-- scalars, floats identified up to 6-decimal rounding (nan with nan, the
-- infinities with themselves), lists pointwise, dicts up to key insertion
-- order (matching by key; Python dict keys are distinct).

def floatEq6 : PFloat → PFloat → Bool
  | PFloat.nan, PFloat.nan => true
  | PFloat.inf, PFloat.inf => true
  | PFloat.ninf, PFloat.ninf => true
  | PFloat.val q, PFloat.val r => pyRound q 6 == pyRound r 6
  | _, _ => false

def keysNodupB {α : Type} : List (String × α) → Bool
  | [] => true
  | kv :: t => !(t.any (fun kv2 => kv2.1 == kv.1)) && keysNodupB t

/-
structEqF with explicit fuel (any fuel at least the nesting depth agrees;
sizeOf is always enough), so that concrete instances evaluate by kernel
reduction.
-/
def structEqF : Nat → CVal → CVal → Bool
  | 0, _, _ => false
  | n + 1, v, w =>
    match v, w with
    | CVal.none, CVal.none => true
    | CVal.bool a, CVal.bool b => a == b
    | CVal.int a, CVal.int b => a == b
    | CVal.float f, CVal.float g => floatEq6 f g
    | CVal.dec q, CVal.dec r => pyRound q 6 == pyRound r 6
    | CVal.str a, CVal.str b => a == b
    | CVal.bytes a, CVal.bytes b => a == b
    | CVal.list a, CVal.list b =>
      a.length == b.length && (a.zip b).all (fun p => structEqF n p.1 p.2)
    | CVal.dict a, CVal.dict b =>
      keysNodupB a && keysNodupB b && (a.length == b.length) &&
        a.all (fun kv =>
          match b.lookup kv.1 with
          | some w2 => structEqF n kv.2 w2
          | Option.none => false)
    | _, _ => false

-- Unfolding lemmas turning the attach-based recursions into plain maps.

theorem normalize_list_eq (items : List CVal) :
    _normalize_value (CVal.list items)
      = NVal.list (items.map _normalize_value) := by
  rw [_normalize_value]
  rw [List.attach_map_coe items _normalize_value]

theorem normalize_dict_eq (es : List (String × CVal)) :
    _normalize_value (CVal.dict es)
      = NVal.dict (es.map (fun kv => (kv.1, _normalize_value kv.2))) := by
  rw [_normalize_value]
  rw [List.attach_map_coe es (fun kv => (kv.1, _normalize_value kv.2))]

theorem render_list_eq (items : List NVal) :
    renderNVal (NVal.list items)
      = "[" ++ joinStr "," (items.map renderNVal) ++ "]" := by
  rw [renderNVal]
  rw [List.attach_map_coe items renderNVal]

theorem render_dict_eq (es : List (String × NVal)) :
    renderNVal (NVal.dict es)
      = "\x7b" ++
        joinStr "," ((List.insertionSort (fun a b => a.1 ≤ b.1)
          (es.map (fun kv => (kv.1, renderNVal kv.2)))).map
            (fun p => jsonQuoteA p.1 ++ ":" ++ p.2)) ++ "\x7d" := by
  rw [renderNVal]
  rw [List.attach_map_coe es (fun kv => (kv.1, renderNVal kv.2))]

theorem mem_of_lookup_eq_some {α : Type} :
    ∀ (l : List (String × α)) (k : String) (w : α),
      l.lookup k = some w → (k, w) ∈ l := by
  intro l
  induction l with
  | nil => intro k w h; simp [List.lookup] at h
  | cons kv t ih =>
    intro k w h
    rcases kv with ⟨k2, v2⟩
    rw [List.lookup_cons] at h
    cases hbe : (k == k2) with
    | true =>
      rw [hbe] at h
      obtain rfl : v2 = w := by simpa using h
      have hkk : k = k2 := by simpa using hbe
      subst hkk
      exact List.mem_cons_self _ _
    | false =>
      rw [hbe] at h
      exact List.mem_cons_of_mem _ (ih k w h)

theorem keysNodup_of_keysNodupB {α : Type} :
    ∀ (l : List (String × α)), keysNodupB l = true →
      (l.map Prod.fst).Nodup := by
  intro l
  induction l with
  | nil => intro _; simp
  | cons kv t ih =>
    intro h
    simp only [keysNodupB, Bool.and_eq_true, Bool.not_eq_true'] at h
    obtain ⟨hany, ht⟩ := h
    simp only [List.map_cons, List.nodup_cons]
    refine ⟨?_, ih ht⟩
    intro hmem
    obtain ⟨kv2, hkv2, hk⟩ := List.mem_map.mp hmem
    have : t.any (fun kv2 => kv2.1 == kv.1) = true :=
      List.any_eq_true.mpr ⟨kv2, hkv2, by simpa using hk⟩
    rw [this] at hany
    simp at hany

theorem eq_of_mem_of_nodupkeys {α : Type} :
    ∀ (l : List (String × α)), (l.map Prod.fst).Nodup →
      ∀ p q : String × α, p ∈ l → q ∈ l → p.1 = q.1 → p = q := by
  intro l
  induction l with
  | nil => intro _ p q hp; simp at hp
  | cons kv t ih =>
    intro hnd p q hp hq hk
    simp only [List.map_cons, List.nodup_cons] at hnd
    obtain ⟨hni, hnd⟩ := hnd
    rcases List.mem_cons.mp hp with hp1 | hp1 <;>
      rcases List.mem_cons.mp hq with hq1 | hq1
    · rw [hp1, hq1]
    · exact absurd (List.mem_map.mpr ⟨q, hq1, by rw [← hk, hp1]⟩) hni
    · exact absurd (List.mem_map.mpr ⟨p, hp1, by rw [hk, hq1]⟩) hni
    · exact ih hnd p q hp1 hq1 hk

theorem map_eq_of_zip {α β : Type} (f : α → β) :
    ∀ (a b : List α), a.length = b.length →
      (∀ p ∈ a.zip b, f p.1 = f p.2) → a.map f = b.map f := by
  intro a
  induction a with
  | nil =>
    intro b hlen hz
    cases b with
    | nil => rfl
    | cons y ys => simp at hlen
  | cons x xs ih =>
    intro b hlen hz
    cases b with
    | nil => simp at hlen
    | cons y ys =>
      simp only [List.map_cons]
      have h1 : f x = f y := hz (x, y) (by simp)
      have h2 : xs.map f = ys.map f := by
        refine ih ys (by simpa using hlen) ?_
        intro p hp
        exact hz p (by simp [List.zip_cons_cons, hp])
      rw [h1, h2]

instance : IsTotal (String × String) (fun a b => a.1 ≤ b.1) :=
  ⟨fun a b => le_total a.1 b.1⟩

instance : IsTrans (String × String) (fun a b => a.1 ≤ b.1) :=
  ⟨fun a b c h1 h2 => le_trans h1 h2⟩

theorem normalize_float_eq_of_floatEq6 (f g : PFloat)
    (h : floatEq6 f g = true) : _normalize_float f = _normalize_float g := by
  cases f <;> cases g <;> simp_all [floatEq6, _normalize_float]

theorem structEqF_render : ∀ (n : Nat) (v w : CVal),
    structEqF n v w = true →
    renderNVal (_normalize_value v) = renderNVal (_normalize_value w) := by
  intro n
  induction n with
  | zero => intro v w h; simp [structEqF] at h
  | succ n ih =>
    intro v w h
    cases v <;> cases w <;>
      simp only [structEqF, Bool.false_eq_true, beq_iff_eq,
        Bool.and_eq_true, List.all_eq_true] at h
    case none.none => rfl
    case bool.bool a b => subst h; rfl
    case int.int a b => subst h; rfl
    case float.float f g =>
      have hfg := normalize_float_eq_of_floatEq6 f g h
      simp [_normalize_value, hfg]
    case dec.dec q r =>
      simp [_normalize_value, h]
    case str.str a b => subst h; rfl
    case bytes.bytes a b => subst h; rfl
    case list.list a b =>
      obtain ⟨hlen, hall⟩ := h
      rw [normalize_list_eq, normalize_list_eq, render_list_eq, render_list_eq,
        List.map_map, List.map_map]
      have hmap := map_eq_of_zip (renderNVal ∘ _normalize_value) a b hlen
        (fun p hp => ih p.1 p.2 (hall p hp))
      rw [hmap]
    case dict.dict a b =>
      obtain ⟨⟨⟨hnda, hndb⟩, hlen⟩, hall⟩ := h
      rw [normalize_dict_eq, normalize_dict_eq, render_dict_eq, render_dict_eq,
        List.map_map, List.map_map]
      simp only [Function.comp_def]
      suffices hsort : List.insertionSort (fun x y => x.1 ≤ y.1)
          (a.map (fun kv => (kv.1, renderNVal (_normalize_value kv.2))))
          = List.insertionSort (fun x y => x.1 ≤ y.1)
            (b.map (fun kv => (kv.1, renderNVal (_normalize_value kv.2)))) by
        rw [hsort]
      have hsub : a.map (fun kv => (kv.1, renderNVal (_normalize_value kv.2)))
          ⊆ b.map (fun kv => (kv.1, renderNVal (_normalize_value kv.2))) := by
        intro p hp
        obtain ⟨kv, hkv, hpe⟩ := List.mem_map.mp hp
        have hmk := hall kv hkv
        cases hlk : b.lookup kv.1 with
        | none => rw [hlk] at hmk; simp at hmk
        | some w2 =>
          rw [hlk] at hmk
          have hmem := mem_of_lookup_eq_some b kv.1 w2 hlk
          have hr : renderNVal (_normalize_value kv.2)
              = renderNVal (_normalize_value w2) := ih kv.2 w2 hmk
          have hin : (kv.1, renderNVal (_normalize_value w2))
              ∈ b.map (fun kv => (kv.1, renderNVal (_normalize_value kv.2))) :=
            List.mem_map.mpr ⟨(kv.1, w2), hmem, rfl⟩
          rw [← hpe, hr]
          exact hin
      have hkeysa : ((a.map (fun kv =>
          (kv.1, renderNVal (_normalize_value kv.2)))).map Prod.fst)
          = a.map Prod.fst := by
        rw [List.map_map]; rfl
      have hknodupa : ((a.map (fun kv =>
          (kv.1, renderNVal (_normalize_value kv.2)))).map Prod.fst).Nodup := by
        rw [hkeysa]; exact keysNodup_of_keysNodupB a hnda
      have hnda2 : (a.map (fun kv =>
          (kv.1, renderNVal (_normalize_value kv.2)))).Nodup :=
        List.Nodup.of_map Prod.fst hknodupa
      have hlenr : (a.map (fun kv =>
          (kv.1, renderNVal (_normalize_value kv.2)))).length
          = (b.map (fun kv =>
              (kv.1, renderNVal (_normalize_value kv.2)))).length := by
        simp [hlen]
      have hperm : (a.map (fun kv =>
          (kv.1, renderNVal (_normalize_value kv.2)))).Perm
          (b.map (fun kv => (kv.1, renderNVal (_normalize_value kv.2)))) :=
        (List.subperm_of_subset hnda2 hsub).perm_of_length_le
          (le_of_eq hlenr.symm)
      have hs1 := List.sorted_insertionSort
        (fun x y : String × String => x.1 ≤ y.1)
        (a.map (fun kv => (kv.1, renderNVal (_normalize_value kv.2))))
      have hs2 := List.sorted_insertionSort
        (fun x y : String × String => x.1 ≤ y.1)
        (b.map (fun kv => (kv.1, renderNVal (_normalize_value kv.2))))
      have hpermS := ((List.perm_insertionSort
          (fun x y : String × String => x.1 ≤ y.1)
          (a.map (fun kv => (kv.1, renderNVal (_normalize_value kv.2))))).trans
        hperm).trans (List.perm_insertionSort
          (fun x y : String × String => x.1 ≤ y.1)
          (b.map (fun kv => (kv.1, renderNVal (_normalize_value kv.2))))).symm
      refine List.Perm.eq_of_sorted ?_ hs1 hs2 hpermS
      intro x y hx hy hxy hyx
      have hxra := (List.perm_insertionSort
        (fun x y : String × String => x.1 ≤ y.1)
        (a.map (fun kv => (kv.1, renderNVal (_normalize_value kv.2))))).mem_iff.mp hx
      have hyrb := (List.perm_insertionSort
        (fun x y : String × String => x.1 ≤ y.1)
        (b.map (fun kv => (kv.1, renderNVal (_normalize_value kv.2))))).mem_iff.mp hy
      have hyra := hperm.symm.mem_iff.mp hyrb
      exact eq_of_mem_of_nodupkeys _ hknodupa x y hxra hyra
        (le_antisymm hxy hyx)

/--
C5.  For any two values that are structurally equal up to dictionary key
insertion order (and dict implementation) and up to float representation
within the 6-decimal rounding tolerance (nan normalized to null, the
infinities to the strings "Infinity"/"-Infinity"), canonicalize produces
identical bytes, and hence fingerprint produces identical hashes.  The
equivalence is structEqF (with any sufficient fuel n): equal scalars,
floats with equal normalizations, lists pointwise, dicts matched by their
(distinct) keys in any order.
-/
theorem C5_canonicalize_determinism (n : Nat) (v w : CVal)
    (h : structEqF n v w = true) :
    canonicalize v = canonicalize w ∧ fingerprint16 v = fingerprint16 w := by
  have hc : canonicalize v = canonicalize w := structEqF_render n v w h
  exact ⟨hc, by unfold fingerprint16; rw [hc]⟩

/--
Witness for C5: two dicts differing only in key insertion order
canonicalize to the same bytes and fingerprint.
-/
theorem C5_canonicalize_determinism_witness :
    structEqF 2 (CVal.dict [("b", CVal.int 1), ("a", CVal.str "x")])
        (CVal.dict [("a", CVal.str "x"), ("b", CVal.int 1)]) = true ∧
    canonicalize (CVal.dict [("b", CVal.int 1), ("a", CVal.str "x")])
      = canonicalize (CVal.dict [("a", CVal.str "x"), ("b", CVal.int 1)]) ∧
    fingerprint16 (CVal.dict [("b", CVal.int 1), ("a", CVal.str "x")])
      = fingerprint16 (CVal.dict [("a", CVal.str "x"), ("b", CVal.int 1)]) :=
  ⟨by decide,
   (C5_canonicalize_determinism 2
      (CVal.dict [("b", CVal.int 1), ("a", CVal.str "x")])
      (CVal.dict [("a", CVal.str "x"), ("b", CVal.int 1)]) (by decide)).1,
   (C5_canonicalize_determinism 2
      (CVal.dict [("b", CVal.int 1), ("a", CVal.str "x")])
      (CVal.dict [("a", CVal.str "x"), ("b", CVal.int 1)]) (by decide)).2⟩
